import Mathlib

/-!
Verification development for the NextGen Dataops backend
(`backend/agents/...`).  The Python sources are shallowly embedded:
pure string manipulation and data-frame bookkeeping are translated to
executable Lean functions on `List Char` / lists of rows; external
library calls (sklearn imputers/scalers/DBSCAN, pandas statistics,
the LLM completion client and the relational store) are abstracted as
explicit capability parameters, exactly at the call sites where the
source invokes them.
-/

namespace DataOps

/-! ## Python string primitives (ASCII fragment used by the backend) -/

/-- Characters stripped by Python's `str.strip()` with no argument. -/
def pySpace (c : Char) : Bool :=
  c = ' ' || c = '\t' || c = '\n' || c = '\r' || c = '\x0b' || c = '\x0c'

/-- `str.lstrip()` on a character list. -/
def lstripC (l : List Char) : List Char := l.dropWhile pySpace

/-- Strip trailing characters satisfying `p` (used for `rstrip` and `strip(';')`). -/
def rstripBy (p : Char → Bool) (l : List Char) : List Char :=
  (l.reverse.dropWhile p).reverse

/-- `str.rstrip()` on a character list. -/
def rstripC (l : List Char) : List Char := rstripBy pySpace l

/-- `str.strip()` on a character list. -/
def stripC (l : List Char) : List Char := rstripC (lstripC l)

/-- `str.strip(';')` on a character list: removes leading and trailing semicolons. -/
def stripSemi (l : List Char) : List Char :=
  rstripBy (fun c => c = ';') (l.dropWhile (fun c => c = ';'))

/-- `str.upper()` (ASCII, as exercised by the backend's SQL keywords). -/
def upperC (l : List Char) : List Char := l.map Char.toUpper

/-- `str.lower()` (ASCII). -/
def lowerC (l : List Char) : List Char := l.map Char.toLower

/-- Python's `pat in s` substring test. -/
def isSubstr (pat : List Char) : List Char → Bool
  | [] => pat.isEmpty
  | c :: t => pat.isPrefixOf (c :: t) || isSubstr pat t

/-- Python's `s.find(pat)`: index of the leftmost occurrence, `none` when absent. -/
def findSub (pat : List Char) : List Char → Option Nat
  | [] => if pat.isPrefixOf ([] : List Char) then some 0 else none
  | c :: t =>
    if pat.isPrefixOf (c :: t) then some 0 else (findSub pat t).map (· + 1)

/-- Python truthiness of an optional string (`None` and `""` are falsy). -/
def pyTruthy : Option String → Bool
  | none => false
  | some s => !(s == "")

/-- `str.strip()` at `String` level. -/
def pyStrip (s : String) : String := ⟨stripC s.data⟩

/-- Helper for `dedupFirst`: keep elements not yet seen, tracking seen ones. -/
def dedupFirstAux {α : Type} [DecidableEq α] (seen : List α) : List α → List α
  | [] => []
  | r :: rest =>
    if r ∈ seen then dedupFirstAux seen rest
    else r :: dedupFirstAux (r :: seen) rest

/-- Keep the first occurrence of every row, in order: the semantics of
pandas `drop_duplicates()` (default `keep='first'`). -/
def dedupFirst {α : Type} [DecidableEq α] (l : List α) : List α :=
  dedupFirstAux [] l

/-- A chat message, `{"role": ..., "content": ...}`. -/
structure Msg where
  role : String
  content : String
deriving DecidableEq, Repr

/-! ## NLtoSQLAgent (`backend/agents/llm/nl_to_sql_agent.py`) -/

namespace NLtoSQLAgent

/-- Case-insensitive literal-prefix test (the pattern is given lowercase). -/
def ciPrefix (pat : List Char) (l : List Char) : Bool :=
  pat.isPrefixOf (lowerC (l.take pat.length))

/-- Remainder of the scan after a `.*` in a pattern without DOTALL: everything
up to (and excluding) the next newline is consumed. -/
def skipToEol : List Char → List Char
  | [] => []
  | c :: r => if c = '\n' then c :: r else skipToEol r

/-- After the literal `LINE ` of the pattern `LINE \d+: `, consume one or more
digits and then the literal `: `; the remainder on success. -/
def lineNumTail (l : List Char) : Option (List Char) :=
  if (l.takeWhile Char.isDigit) = [] then none
  else if ": ".data.isPrefixOf (l.drop (l.takeWhile Char.isDigit).length)
       then some ((l.drop (l.takeWhile Char.isDigit).length).drop 2) else none

/-- One pass of `re.sub(r"LINE \\d+: |HINT:.*|CONTEXT:.*", "", db_error, flags=re.IGNORECASE)`
as used on the database error in `_construct_prompt`: scan left to right,
delete every occurrence of the three alternatives, copy everything else.  The
fuel argument only bounds the recursion: every step consumes at least one
character, so starting it at the length of the text it never runs out. -/
def cleanPassAux : Nat → List Char → List Char
  | _, [] => []
  | 0, l => l
  | fuel + 1, c :: rest =>
    if ciPrefix "line ".data (c :: rest) then
      match lineNumTail ((c :: rest).drop 5) with
      | some r => cleanPassAux fuel r
      | none => c :: cleanPassAux fuel rest
    else if ciPrefix "hint:".data (c :: rest) then
      cleanPassAux fuel (skipToEol ((c :: rest).drop 5))
    else if ciPrefix "context:".data (c :: rest) then
      cleanPassAux fuel (skipToEol ((c :: rest).drop 8))
    else c :: cleanPassAux fuel rest

/-- The scan started with enough fuel for the whole text. -/
def cleanPassC (l : List Char) : List Char := cleanPassAux l.length l

/-- `db_error_cleaned = re.sub(r"LINE \d+: |HINT:.*|CONTEXT:.*", "", db_error,
flags=re.IGNORECASE).strip()`. -/
def cleanDbError (s : String) : String := pyStrip ⟨cleanPassC s.data⟩

/-- `NLtoSQLAgent.MAX_RETRIES`: number of retries for SQL generation if the
initial query fails. -/
def MAX_RETRIES : Nat := 1

/-- The `disallowed` keyword list of `_parse_and_validate_sql` (each keyword is
followed by one space, exactly as in the source). -/
def disallowed : List (List Char) :=
  ["UPDATE ".data, "DELETE ".data, "INSERT ".data, "DROP ".data,
   "TRUNCATE ".data, "ALTER ".data, "CREATE ".data]

/-- The code-fence regular expression of `_parse_and_validate_sql`:
`re.match(r"^\s*(backtick-fence)(?:sql)?\s*(.*?)\s*(backtick-fence)\s*$", s, IGNORECASE|DOTALL)`,
returning `group(1).strip()` when the whole string matches.  The lazy middle
group together with the anchored tail forces the closing fence to be the one
followed only by whitespace, and the surrounding `\s*` are collapsed by the
final `.strip()` the source applies to the group. -/
def fenceMatch (l : List Char) : Option (List Char) :=
  let s1 := lstripC l
  if "```".data.isPrefixOf s1 then
    let s2 := s1.drop 3
    let s3 := if "sql".data.isPrefixOf (lowerC (s2.take 3)) then s2.drop 3 else s2
    let u := rstripC s3
    if "```".data.isSuffixOf u then some (stripC (u.take (u.length - 3))) else none
  else none

/-- Final keyword screen of `_parse_and_validate_sql`: reject when any
`disallowed` token occurs in the uppercased candidate, else accept it. -/
def keywordCheck (c : List Char) : Option (List Char) × Option String :=
  if disallowed.any (fun kw => isSubstr kw (upperC c)) then
    (none, some "Generated query contains potentially disallowed keywords (non-SELECT).")
  else (some c, none)

/-- Code-fence cleaning block of `_parse_and_validate_sql`: the regex match,
and otherwise the manual `startswith`/`endswith` fence removal. -/
def sqlCleanFence (clean0 : List Char) : List Char :=
  match fenceMatch clean0 with
  | some g => g
  | none =>
    let a :=
      if "```sql".data.isPrefixOf (lowerC clean0) then stripC (clean0.drop 6)
      else if "```".data.isPrefixOf clean0 then stripC (clean0.drop 3)
      else clean0
    if "```".data.isSuffixOf a then stripC (a.take (a.length - 3)) else a

/-- The fully cleaned candidate of `_parse_and_validate_sql`:
`raw_sql.strip()`, fence removal, then `.strip().strip(';')`. -/
def sqlClean (raw : List Char) : List Char :=
  stripSemi (stripC (sqlCleanFence (stripC raw)))

/-- The SELECT screen of `_parse_and_validate_sql`: if the cleaned candidate
does not start (after uppercasing and `lstrip`) with `SELECT`, extract from the
first occurrence of `SELECT ` when present, else report the non-SELECT error
(which quotes `raw_sql[:200]`); finally run the disallowed-keyword screen. -/
def sqlFinalize (clean2 raw : List Char) : Option (List Char) × Option String :=
  if "SELECT".data.isPrefixOf (lstripC (upperC clean2)) then keywordCheck clean2
  else
    match findSub "SELECT ".data (upperC clean2) with
    | some i => keywordCheck (stripSemi (stripC (clean2.drop i)))
    | none =>
      (none, some ("LLM response does not appear to be a valid SELECT query. Response: '"
        ++ String.mk (raw.take 200) ++ "...'"))

/-- `NLtoSQLAgent._parse_and_validate_sql` on character lists: cleaning
(code-fence removal, whitespace and semicolon stripping), the SELECT check
with its "extract from first `SELECT `" fallback, and the disallowed-keyword
screen. -/
def parseAndValidateSqlC (raw : List Char) : Option (List Char) × Option String :=
  if raw = [] then (none, some "LLM returned an empty response.")
  else
    if sqlClean raw = [] then (none, some "LLM response was empty after cleaning formatting.")
    else sqlFinalize (sqlClean raw) raw

/-- `NLtoSQLAgent._parse_and_validate_sql` at `String` level:
`(validated_sql | None, error_message | None)`. -/
def parse_and_validate_sql (raw : String) : Option String × Option String :=
  let r := parseAndValidateSqlC raw.data
  (r.1.map String.mk, r.2)

/-- Initial system prompt header of `_construct_prompt`. -/
def sql_system_prompt_header : String :=
  "You are an expert PostgreSQL database assistant. Your task is to translate a natural language question into a single, syntactically correct PostgreSQL SELECT query."

/-- Retry system prompt header of `_construct_prompt`. -/
def sql_retry_header : String :=
  "You are an expert PostgreSQL database assistant. Your previous attempt to generate SQL resulted in an error. Analyze the error and provide a corrected PostgreSQL SELECT query."

/-- The `schema_section` f-string of `_construct_prompt`. -/
def sql_schema_section (schema_str : String) : String :=
  "Database Schema (PostgreSQL - table and column names might be quoted if they required sanitization):\n```sql\n" ++ schema_str ++ "\n```"

/-- The `instructions` literal of `_construct_prompt`. -/
def sql_instructions : String :=
  "\n        Instructions & Constraints:\n        1.  **Analyze the Question:** Understand the user's intent and the specific data requested.\n        2.  **Use the Schema:** MUST only use the table name(s) and column names provided in the schema above. Pay close attention to exact names and quoting (e.g., use `\"Column Name\"` if the schema shows it quoted). PostgreSQL treats unquoted identifiers as lowercase unless quoted.\n        3.  **Generate SELECT Only:** Generate ONLY a single PostgreSQL `SELECT` statement.\n        4.  **DO NOT Generate:** `UPDATE`, `DELETE`, `INSERT`, `DROP`, `CREATE`, `ALTER`, or any other DDL/DML statements.\n        5.  **PostgreSQL Syntax:** Ensure the query uses valid PostgreSQL syntax (e.g., date functions `DATE_TRUNC()`, `EXTRACT(FIELD FROM source)`, string concatenation `||`, case-insensitive comparison `ILIKE`, standard aggregate functions, window functions if appropriate). Use single quotes for string literals (e.g., `WHERE category = 'Electronics'`).\n        6.  **Clarity:** If the question is ambiguous, generate the most probable and useful query based on the schema. Do not ask clarifying questions.\n        7.  **Output Format:** Respond ONLY with the generated SQL query. Do not include explanations, comments, introductory phrases, or markdown formatting (like ```sql ... ```). Just the raw SQL query.\n        "

/-- The retry `user_message_content` f-string of `_construct_prompt`: names the
original question, the schema, the previous query (stripped) and the cleaned
database error. -/
def sql_retry_user (nl_question schema_str previous_query db_error : String) : String :=
  "\n            Original Natural Language Question: " ++ pyStrip nl_question
  ++ "\n\n            The following PostgreSQL schema was used:\n            ```sql\n            "
  ++ schema_str
  ++ "\n\n            Your previously generated SQL query, which FAILED:\n            "
  ++ pyStrip previous_query
  ++ "\n\n            Resulted in the following database error:\n            "
  ++ cleanDbError db_error
  ++ "\n\n            Please carefully review the schema, the original question, your previous query, and the database error (especially regarding table/column names and syntax). Provide a corrected and valid PostgreSQL SELECT query based only on the schema and question.\n            Respond ONLY with the corrected SQL query, without any explanations or markdown.\n            "

/-- `NLtoSQLAgent._construct_prompt`: system and user messages, switching to the
error-feedback form when both a previous query and a database error are given
(Python truthiness on both). -/
def construct_prompt (nl_question schema_str : String)
    (previous_query db_error : Option String) : List Msg :=
  if pyTruthy previous_query && pyTruthy db_error then
    [⟨"system", sql_retry_header ++ "\n\n" ++ sql_schema_section schema_str ++ "\n" ++ sql_instructions⟩,
     ⟨"user", pyStrip (sql_retry_user nl_question schema_str (previous_query.getD "") (db_error.getD ""))⟩]
  else
    [⟨"system", sql_system_prompt_header ++ "\n\n" ++ sql_schema_section schema_str ++ "\n" ++ sql_instructions⟩,
     ⟨"user", pyStrip ("Natural Language Question: " ++ pyStrip nl_question)⟩]

/-- `NLtoSQLAgent.generate_sql_query`, with the centralized
`execute_llm_completion` client passed as an explicit capability (the source
imports it as a module-level function); `llm_config` is modelled by its
truthiness, which is all the source inspects. -/
def generate_sql_query (completion : List Msg → Option String × Option String)
    (nl_question schema_str : String) (llm_config : Bool)
    (previous_query db_error : Option String) : Option String × Option String :=
  if nl_question == "" || schema_str == "" || !llm_config then
    (none, some "Missing input(s) for SQL generation.")
  else
    let messages := construct_prompt nl_question schema_str previous_query db_error
    let res := completion messages
    if pyTruthy res.2 then (none, res.2)
    else
      match res.1 with
      | some raw =>
        if raw ≠ "" then
          let v := parse_and_validate_sql raw
          if pyTruthy v.2 then (none, v.2) else (v.1, none)
        else (none, some "LLM client returned empty content.")
      | none => (none, some "LLM client returned empty content.")

end NLtoSQLAgent


/-! ## Tabular data model

A pandas DataFrame is modelled as named columns with declared dtype strings
and a list of rows; a missing value (NaN/None) is the cell `Cell.null`. -/

inductive Cell
  | null
  | str (s : String)
  | int (n : Int)
deriving DecidableEq, Repr

/-- Python `str()` of a cell value, as interpolated into log f-strings. -/
def cellStr : Cell → String
  | Cell.null => "None"
  | Cell.str s => s
  | Cell.int n => toString n

structure Df where
  cols : List String
  dtypes : List String
  rows : List (List Cell)
deriving DecidableEq, Repr

/-- pandas `DataFrame.empty`: true when either axis has length zero. -/
def dfEmpty (df : Df) : Bool := df.rows.isEmpty || df.cols.isEmpty

/-- Python `f"{n:,}"`: thousands separators (helper working on reversed digits). -/
def groupThrees : List Char → List Char
  | a :: b :: c :: d :: rest => a :: b :: c :: ',' :: groupThrees (d :: rest)
  | l => l

/-- Python `f"{n:,}"`. -/
def fmtComma (n : Nat) : String := ⟨(groupThrees (toString n).data.reverse).reverse⟩

/-- Python `repr` of a list of strings, e.g. `['a', 'b']` (quote escaping inside
names is not modelled). -/
def pyListRepr (l : List String) : String :=
  "[" ++ String.intercalate ", " (l.map (fun c => "'" ++ c ++ "'")) ++ "]"

/-- Round half to even (the rounding of Python `round` and `%.1f`/`%.2f`
formatting, applied here to the exact rational — binary floating point
artifacts are outside the model). -/
def roundHalfEven (x : Rat) : Int :=
  let f := x.floor
  let frac := x - (f : Rat)
  if frac < 1 / 2 then f
  else if frac > 1 / 2 then f + 1
  else if f % 2 = 0 then f else f + 1

/-- Python `round(x, 2)` on the exact rational. -/
def round2 (x : Rat) : Rat := ((roundHalfEven (x * 100) : Rat)) / 100

/-- Python `f"{x:.1f}"` on the exact rational. -/
def fmt1 (x : Rat) : String :=
  let n := roundHalfEven (x * 10)
  if n < 0 then "-" ++ toString ((-n) / 10) ++ "." ++ toString ((-n) % 10)
  else toString (n / 10) ++ "." ++ toString (n % 10)

/-- Two-digit zero-padded rendering of a remainder, for `%.2f`. -/
def pad2 (k : Int) : String := if k < 10 then "0" ++ toString k else toString k

/-- Python `f"{x:.2f}"` on the exact rational. -/
def fmt2 (x : Rat) : String :=
  let n := roundHalfEven (x * 100)
  if n < 0 then "-" ++ toString ((-n) / 100) ++ "." ++ pad2 ((-n) % 100)
  else toString (n / 100) ++ "." ++ pad2 (n % 100)

/-! ## Profile report data model (§ the dict produced by `profile`) -/

structure DbscanParams where
  eps : Option Rat
  min_samples : Option Nat
deriving DecidableEq, Repr

structure MissingInfo where
  count : Nat
  percentage : Rat
deriving DecidableEq, Repr

structure BasicInfo where
  rows : Nat
  columns : Nat
  duplicates : Nat
  memory_usage : String
deriving DecidableEq, Repr

/-- The `outlier_detection` entry.  The minimal report for an empty DataFrame
carries only `method` and `error`; absent keys are `none`. -/
structure OutlierReport where
  method : String
  parameters : Option DbscanParams
  outlier_count : Option Nat
  outlier_percentage : Option Rat
  rows_analyzed : Option Nat
  rows_dropped_nan : Option Nat
  error : Option String
deriving DecidableEq, Repr

structure DescStats where
  numeric : Option (List (String × List (String × Rat)))
  categorical : Option (List (String × List (String × String)))
deriving DecidableEq, Repr

structure ProfileReport where
  basic_info : BasicInfo
  data_types : List (String × String)
  missing_values : List (String × MissingInfo)
  descriptive_stats : Option DescStats
  cardinality : List (String × Nat)
  correlation_matrix : Option (List (String × List (String × Rat)))
  skewness : Option (List (String × Rat))
  kurtosis : Option (List (String × Rat))
  outlier_detection : OutlierReport
deriving DecidableEq, Repr

/-! ## PreprocessingAgent (`backend/agents/preprocessing_agent.py`) -/

namespace PreprocessingAgent

/-- The sklearn calls of `_perform_dbscan` as capabilities:
`StandardScaler().fit_transform` and `DBSCAN(eps, min_samples).fit_predict`;
an `Except.error` is a raised exception with its message. -/
structure SklearnCluster where
  scalerFitTransform : List (List Cell) → Except String (List (List Rat))
  dbscanFitPredict : Rat → Nat → List (List Rat) → Except String (List Int)

/-- The pandas statistics consumed by `profile` as capabilities (each call site
sits in its own try/except island in the source). -/
structure PandasStats where
  memory_usage_bytes : Df → Except String Nat
  describe_numeric : Df → Except String (List (String × List (String × Rat)))
  describe_categorical : Df → Except String (List (String × List (String × String)))
  corr : Df → Except String (List (String × List (String × Rat)))
  skew : Df → Except String (List (String × Rat))
  kurt : Df → Except String (List (String × Rat))

/-- Membership of a declared dtype string in the `np.number` family, as it
shows up in the dtype strings of this backend (`int64`, `float64`, ...). -/
def isNumericDtype (d : String) : Bool :=
  isSubstr "int".data d.data || isSubstr "float".data d.data

/-- Dtype strings selected by `select_dtypes(include=['object', 'string', 'category'])`. -/
def isObjectDtype (d : String) : Bool :=
  isSubstr "object".data d.data || isSubstr "string".data d.data
    || isSubstr "category".data d.data

/-- `df.select_dtypes(...)`: keep the columns whose declared dtype satisfies
the predicate, projecting every row accordingly. -/
def selectCols (df : Df) (keep : String → Bool) : Df :=
  { cols := ((df.cols.zip df.dtypes).filter (fun p => keep p.2)).map (fun p => p.1),
    dtypes := df.dtypes.filter keep,
    rows := df.rows.map (fun r =>
      (((df.cols.zip df.dtypes).zip r).filter (fun p => keep p.1.2)).map (fun p => p.2)) }

/-- `df.dropna()` over the numeric frame: drop every row containing a missing
value. -/
def dropna (df : Df) : Df :=
  { df with rows := df.rows.filter (fun r => r.all (fun c => c ≠ Cell.null)) }

/-- `PreprocessingAgent._get_memory_usage`: binary units with 2-decimal
rounding; any failure yields `"N/A"`. -/
def get_memory_usage (lib : PandasStats) (df : Df) : String :=
  match lib.memory_usage_bytes df with
  | Except.error _ => "N/A"
  | Except.ok mem =>
    if mem < 1024 then toString mem ++ " Bytes"
    else if mem < 1024 ^ 2 then fmt2 ((mem : Rat) / 1024) ++ " KB"
    else if mem < 1024 ^ 3 then fmt2 ((mem : Rat) / 1024 ^ 2) ++ " MB"
    else fmt2 ((mem : Rat) / 1024 ^ 3) ++ " GB"

/-- The `results` dict `_perform_dbscan` initializes before any check. -/
def initialResults (params : DbscanParams) : OutlierReport :=
  { method := "DBSCAN", parameters := some params, outlier_count := some 0,
    outlier_percentage := some 0, rows_analyzed := some 0,
    rows_dropped_nan := some 0, error := none }

/-- `PreprocessingAgent._perform_dbscan`: empty-frame guard, NaN-row dropping,
the `min_samples` population guard, then scaling and clustering through the
sklearn capabilities with exceptions turned into the `error` field
(the source formats caught errors as `ValueError during DBSCAN ...`; its
second, generic except branch is analogous). -/
def perform_dbscan (lib : SklearnCluster) (numeric_df : Df) (params : DbscanParams) :
    OutlierReport :=
  let results := initialResults params
  if dfEmpty numeric_df then
    { results with error := some "Input numeric DataFrame is empty." }
  else
    let original_count := numeric_df.rows.length
    let numeric_df_clean := dropna numeric_df
    let dropped_count := original_count - numeric_df_clean.rows.length
    if numeric_df_clean.rows.length < params.min_samples.getD 5 then
      { results with error := some ("Not enough non-NaN data points ("
        ++ toString numeric_df_clean.rows.length ++ ") for DBSCAN min_samples ("
        ++ toString (params.min_samples.getD 5) ++ ").") }
    else
      match lib.scalerFitTransform numeric_df_clean.rows with
      | Except.error ve =>
        { results with error := some ("ValueError during DBSCAN (check parameters/data): " ++ ve) }
      | Except.ok scaled =>
        match lib.dbscanFitPredict (params.eps.getD (1 / 2)) (params.min_samples.getD 5) scaled with
        | Except.error ve =>
          { results with error := some ("ValueError during DBSCAN (check parameters/data): " ++ ve) }
        | Except.ok clusters =>
          let outlier_count := (clusters.filter (fun lab => lab = -1)).length
          let total_rows_analyzed := numeric_df_clean.rows.length
          let outlier_percentage : Rat :=
            if total_rows_analyzed > 0
            then (outlier_count : Rat) / (total_rows_analyzed : Rat) * 100 else 0
          { results with
            outlier_count := some outlier_count,
            outlier_percentage := some (round2 outlier_percentage),
            rows_analyzed := some total_rows_analyzed,
            rows_dropped_nan := some dropped_count,
            error := none }

/-- Per-column null count and 2-decimal percentage (percentage `0` when the
frame has no rows, mirroring the `if len(df) > 0` guard). -/
def missingValuesReport (df : Df) : List (String × MissingInfo) :=
  (List.range df.cols.length).map (fun i =>
    let cnt := ((df.rows.map (fun r => r.getD i Cell.null)).filter
      (fun c => c = Cell.null)).length
    let perc : Rat := if df.rows.length > 0
      then round2 ((cnt : Rat) / (df.rows.length : Rat) * 100) else 0
    (df.cols.getD i "", MissingInfo.mk cnt perc))

/-- `df.nunique()`: per-column distinct non-null count. -/
def nunique (df : Df) : List (String × Nat) :=
  (List.range df.cols.length).map (fun i =>
    (df.cols.getD i "",
     (dedupFirst ((df.rows.map (fun r => r.getD i Cell.null)).filter
       (fun c => c ≠ Cell.null))).length))

/-- The minimal report returned for an empty DataFrame. -/
def emptyReport : ProfileReport :=
  { basic_info := ⟨0, 0, 0, "0 Bytes"⟩,
    data_types := [], missing_values := [], descriptive_stats := none,
    cardinality := [], correlation_matrix := none, skewness := none,
    kurtosis := none,
    outlier_detection := { method := "DBSCAN", parameters := none,
                           outlier_count := none, outlier_percentage := none,
                           rows_analyzed := none, rows_dropped_nan := none,
                           error := some "DataFrame is empty" } }

/-- `PreprocessingAgent.profile`: `None` for a non-DataFrame input, the minimal
report for an empty frame, and otherwise the report assembled section by
section, each statistics call isolated in its own try/except (a failed island
leaves its entry `none`, exactly as the source stores `None` / skips). -/
def profile (libP : PandasStats) (libC : SklearnCluster) (df : Option Df)
    (dbscan_params : DbscanParams) : Option ProfileReport :=
  match df with
  | none => none
  | some d =>
    if dfEmpty d then some emptyReport
    else
      let basic_info : BasicInfo :=
        ⟨d.rows.length, d.cols.length, d.rows.length - (dedupFirst d.rows).length,
         get_memory_usage libP d⟩
      let data_types := d.cols.zip d.dtypes
      let missing_values := missingValuesReport d
      let numeric_cols_df := selectCols d isNumericDtype
      let object_cols_df := selectCols d isObjectDtype
      let numeric_stats := if numeric_cols_df.cols.isEmpty then none else
        match libP.describe_numeric numeric_cols_df with
        | Except.ok t => some t
        | Except.error _ => none
      let categorical_stats := if object_cols_df.cols.isEmpty then none else
        match libP.describe_categorical object_cols_df with
        | Except.ok t => some t
        | Except.error _ => none
      let cardinality := nunique d
      let numeric_df := numeric_cols_df
      let correlation_matrix : Option (List (String × List (String × Rat))) :=
        if numeric_df.cols.length > 1 then
          match libP.corr numeric_df with
          | Except.ok t => some t
          | Except.error _ => none
        else none
      let skewness : Option (List (String × Rat)) :=
        match libP.skew numeric_df with
        | Except.ok t => some t
        | Except.error _ => none
      let kurtosis : Option (List (String × Rat)) :=
        match libP.kurt numeric_df with
        | Except.ok t => some t
        | Except.error _ => none
      if !(dfEmpty numeric_df) then
        some ⟨basic_info, data_types, missing_values,
              some ⟨numeric_stats, categorical_stats⟩, cardinality,
              correlation_matrix, skewness, kurtosis,
              perform_dbscan libC numeric_df dbscan_params⟩
      else
        some ⟨basic_info, data_types, missing_values,
              some ⟨numeric_stats, categorical_stats⟩, cardinality,
              none, none, none,
              ⟨"DBSCAN", none, none, none, none, none,
               some "No numeric columns found in the dataset."⟩⟩

end PreprocessingAgent



/-! ## CleaningAgent (`backend/agents/cleaning_agent.py`) -/

namespace CleaningAgent

/-- A suggested cleaning action, `{column, issue, suggestion, action_code,
details}`.  `column` is optional because `apply_cleaning_steps` reads it with
`action.get('column')`; `action_code` is the closed enumeration every
proposal carries. -/
structure Action where
  column : Option String
  issue : Option String
  suggestion : Option String
  action_code : String
  details : List (String × Cell)
deriving DecidableEq, Repr

/-- An `ActionProposal` as produced by `suggest_cleaning_steps` (details here
are the string parameter bag, e.g. `fill_value`). -/
structure Suggestion where
  column : String
  issue : String
  suggestion : String
  action_code : String
  details : List (String × String)
deriving DecidableEq, Repr

/-- `sklearn.impute.SimpleImputer(strategy, fill_value).fit_transform` on one
column as a capability; an `Except.error` models a raised exception with its
message. -/
structure Sklearn where
  fit_transform : String → Option Cell → List Cell → Except String (List Cell)

/-- The two DataFrame objects alive during `apply_cleaning_steps`: the
caller\x27s object bound to the `df` parameter, and `cleaned_df = df.copy()`.
Every in-place operation of the source targets `cleaned`; no statement of the
source writes to `caller`. -/
structure PyState where
  caller : Df
  cleaned : Df
deriving Repr

/-- Index of a column name (the guard `col in cleaned_df.columns` is always
checked before use). -/
def colIdx (cols : List String) (c : String) : Nat := cols.indexOf c

/-- The values of column `i`. -/
def getColumn (df : Df) (i : Nat) : List Cell :=
  df.rows.map (fun r => r.getD i Cell.null)

/-- `cleaned_df[col] = vals`: replace column `i` row-wise (sklearn returns one
value per row; a missing position leaves the cell unchanged). -/
def setColumn (df : Df) (i : Nat) (vals : List Cell) : Df :=
  { df with rows := df.rows.mapIdx (fun j r =>
      match vals.get? j with
      | some v => r.set i v
      | none => r) }

/-- `cleaned_df.drop(columns=list(cols_to_drop), inplace=True)` after the
existence check: remove the named columns and project every row.  Python set
iteration order is not specified; the drop list is modelled in insertion
order. -/
def dropColumns (df : Df) (drop : List String) : Df :=
  { cols := df.cols.filter (fun c => c ∉ drop),
    dtypes := ((df.cols.zip df.dtypes).filter (fun p => p.1 ∉ drop)).map (fun p => p.2),
    rows := df.rows.map (fun r =>
      ((df.cols.zip r).filter (fun p => p.1 ∉ drop)).map (fun p => p.2)) }

/-- Phase 1 of `apply_cleaning_steps`: if any selected action is
`remove_duplicates`, drop duplicate rows once, log, and remove all such
actions from the list. -/
def phase1 (s : PyState) (selected : List Action) : PyState × List Action × List String :=
  if selected.any (fun a => a.action_code == "remove_duplicates") then
    let initial_rows := s.cleaned.rows.length
    let cleaned' := { s.cleaned with rows := dedupFirst s.cleaned.rows }
    let rows_removed := initial_rows - cleaned'.rows.length
    let log_msg :=
      if rows_removed > 0 then
        "Applied 'remove_duplicates': Removed " ++ fmtComma rows_removed ++ " duplicate rows."
      else "Applied 'remove_duplicates': No duplicate rows found to remove."
    ({ s with cleaned := cleaned' },
     selected.filter (fun a => a.action_code ≠ "remove_duplicates"), [log_msg])
  else (s, selected, [])

/-- The marking loop of phase 2: collect `drop_column` targets (truthy,
deduplicated, with a `Marked column ...` log each) and keep the other actions
in order. -/
def markDrops : List Action → List String → List String × List Action × List String
  | [], _ => ([], [], [])
  | a :: rest, marked =>
    if a.action_code == "drop_column" then
      match a.column with
      | some col =>
        if col ≠ "" ∧ col ∉ marked then
          let r := markDrops rest (marked ++ [col])
          (col :: r.1, r.2.1,
           ("Marked column '" ++ col ++ "' for dropping due to '"
             ++ a.issue.getD "N/A" ++ "'.") :: r.2.2)
        else markDrops rest marked
      | none => markDrops rest marked
    else
      let r := markDrops rest marked
      (r.1, a :: r.2.1, r.2.2)

/-- Phase 2 of `apply_cleaning_steps`: drop the marked columns together.
pandas `drop` raises `KeyError` (naming the missing labels) before changing
anything when any label is absent; the except branch logs the warning. -/
def phase2 (s : PyState) (selected : List Action) : PyState × List Action × List String :=
  let r := markDrops selected []
  let cols_to_drop := r.1
  let actions_remaining := r.2.1
  let markLogs := r.2.2
  if cols_to_drop ≠ [] then
    if cols_to_drop.all (fun c => c ∈ s.cleaned.cols) then
      ({ s with cleaned := dropColumns s.cleaned cols_to_drop }, actions_remaining,
       markLogs ++ ["Dropped columns: " ++ pyListRepr cols_to_drop])
    else
      let missing := cols_to_drop.filter (fun c => c ∉ s.cleaned.cols)
      (s, actions_remaining,
       markLogs ++ ["Warning: Could not drop columns - \"" ++ pyListRepr missing
         ++ " not found in axis\". They might have been dropped already."])
  else (s, actions_remaining, markLogs)

/-- The imputer selected for an action code: sklearn strategy, fill value and
the display string interpolated into the success log. -/
def imputerFor (code : String) (details : List (String × Cell)) :
    Option (String × Option Cell × String) :=
  if code == "impute_median" then some ("median", none, "median")
  else if code == "impute_mean" then some ("mean", none, "mean")
  else if code == "impute_mode" then some ("most_frequent", none, "mode (most frequent)")
  else if code == "impute_constant" then
    let fill := (details.lookup "fill_value").getD (Cell.str "Unknown")
    some ("constant", some fill, "constant (" ++ cellStr fill ++ ")")
  else none

/-- One iteration of the remaining-actions loop of `apply_cleaning_steps`:
skip a vanished column, honor at most one imputation per column, run the
imputer inside the try/except (a raised exception becomes an error log and the
action is skipped), and warn on unimplemented codes. -/
def phase3Step (o : Sklearn) (s : PyState) (applied : List (String × String))
    (a : Action) : PyState × List (String × String) × List String :=
  let code := a.action_code
  match a.column with
  | none =>
    (s, applied, ["Skipping action '" ++ code ++ "' for column 'None': Column no longer exists."])
  | some col =>
    if col ∉ s.cleaned.cols then
      (s, applied, ["Skipping action '" ++ code ++ "' for column '" ++ col
        ++ "': Column no longer exists."])
    else
      match imputerFor code a.details with
      | some (strategy, fill, strategyLabel) =>
        let prev := applied.lookup col
        if pyTruthy prev && (prev.getD "").startsWith "impute" then
          (s, applied, ["Skipping '" ++ code ++ "' for '" ++ col ++ "': Imputation '"
            ++ prev.getD "" ++ "' already applied."])
        else
          match o.fit_transform strategy fill (getColumn s.cleaned (colIdx s.cleaned.cols col)) with
          | Except.ok vals =>
            ({ s with cleaned := setColumn s.cleaned (colIdx s.cleaned.cols col) vals },
             (col, code) :: applied,
             ["Applied '" ++ code ++ "': Imputed missing values in '" ++ col ++ "' with "
               ++ strategyLabel ++ "."])
          | Except.error e =>
            (s, applied, ["Error applying action '" ++ code ++ "' to column '" ++ col ++ "': " ++ e])
      | none =>
        if code ≠ "" then
          (s, applied, ["Warning: Action code '" ++ code ++ "' not implemented yet."])
        else (s, applied, [])

/-- Phase 3 of `apply_cleaning_steps`: the remaining actions in input order,
threading the per-column applied-imputation map. -/
def phase3 (o : Sklearn) : PyState → List (String × String) → List Action → PyState × List String
  | s, _, [] => (s, [])
  | s, applied, a :: rest =>
    let r1 := phase3Step o s applied a
    let r2 := phase3 o r1.1 r1.2.1 rest
    (r2.1, r1.2.2 ++ r2.2)

/-- The three phases in order, on the pair of DataFrame objects
(`cleaned = df.copy()` at entry). -/
def applyPhases (o : Sklearn) (s : PyState) (selected : List Action) :
    PyState × List String :=
  let r1 := phase1 s selected
  let r2 := phase2 r1.1 r1.2.1
  let r3 := phase3 o r2.1 [] r2.2.1
  (r3.1, r1.2.2 ++ r2.2.2 ++ r3.2)

/-- `CleaningAgent.apply_cleaning_steps`: `None` input short-circuits, else the
phases run on a copy and return `(cleaned_dataframe, log_messages)`. -/
def apply_cleaning_steps (o : Sklearn) (df : Option Df) (selected : List Action) :
    Option Df × List String :=
  match df with
  | none => (none, ["Error: Input DataFrame is None."])
  | some d =>
    let r := applyPhases o ⟨d, d⟩ selected
    (some r.1.cleaned, r.2)

/-- One iteration of the missing-values rule of `suggest_cleaning_steps` for
column `col`.  `data_types.get(col)` can be `None`, in which case the Python
membership test `'int' in col_dtype` raises `TypeError`. -/
def suggestForCol (data_types : List (String × String)) (col : String)
    (data : MissingInfo) : Except String (List Suggestion) :=
  let missing_perc := data.percentage
  let missing_count := data.count
  if missing_count > 0 then
    if missing_perc > 90 then
      Except.ok [⟨col, fmt1 missing_perc ++ "% Missing",
        "Drop Column (Very High Missing %)", "drop_column", []⟩]
    else
      match data_types.lookup col with
      | none => Except.error "TypeError: argument of type 'NoneType' is not iterable"
      | some col_dtype =>
        if isSubstr "int".data col_dtype.data || isSubstr "float".data col_dtype.data then
          if missing_perc < 30 then
            Except.ok [⟨col, fmt1 missing_perc ++ "% Missing",
                "Impute with Median", "impute_median", []⟩,
              ⟨col, fmt1 missing_perc ++ "% Missing",
                "Impute with Mean", "impute_mean", []⟩]
          else
            Except.ok [⟨col, fmt1 missing_perc ++ "% Missing",
              "Drop Column (High Missing %)", "drop_column", []⟩]
        else if isSubstr "object".data col_dtype.data
            || isSubstr "string".data col_dtype.data
            || isSubstr "category".data col_dtype.data then
          if missing_perc < 30 then
            Except.ok [⟨col, fmt1 missing_perc ++ "% Missing",
                "Impute with Mode (Most Frequent)", "impute_mode", []⟩,
              ⟨col, fmt1 missing_perc ++ "% Missing",
                "Impute with Constant 'Missing'", "impute_constant",
                [("fill_value", "Missing")]⟩]
          else
            Except.ok [⟨col, fmt1 missing_perc ++ "% Missing",
              "Drop Column (High Missing %)", "drop_column", []⟩]
        else Except.ok []
  else Except.ok []

/-- The missing-values loop of `suggest_cleaning_steps` over the report
entries, in report order; a raised `TypeError` aborts the whole call. -/
def missingSuggestions (data_types : List (String × String)) :
    List (String × MissingInfo) → Except String (List Suggestion)
  | [] => Except.ok []
  | (col, data) :: rest =>
    match suggestForCol data_types col data with
    | Except.error e => Except.error e
    | Except.ok l1 =>
      match missingSuggestions data_types rest with
      | Except.error e => Except.error e
      | Except.ok l2 => Except.ok (l1 ++ l2)

/-- `CleaningAgent.suggest_cleaning_steps`: the missing-values rules, then the
duplicate-rows rule (column `"ALL"`); the outlier, mixed-type and
high-cardinality rules of the source emit nothing (`pass`/TODO). -/
def suggest_cleaning_steps (report : Option ProfileReport) (df : Option Df) :
    Except String (List Suggestion) :=
  match report, df with
  | some r, some _ =>
    match missingSuggestions r.data_types r.missing_values with
    | Except.error e => Except.error e
    | Except.ok ms =>
      let dup := r.basic_info.duplicates
      let ds : List Suggestion :=
        if dup > 0 then
          [⟨"ALL", fmtComma dup ++ " Duplicate Rows", "Remove Duplicate Rows",
            "remove_duplicates", []⟩]
        else []
      Except.ok (ms ++ ds)
  | _, _ => Except.ok []

end CleaningAgent


/-! ## NLtoVizAgent (`backend/agents/llm/nl_to_viz_agent.py`) -/

namespace NLtoVizAgent

/-- `NLtoVizAgent.SUPPORTED_PLOT_TYPES`. -/
def SUPPORTED_PLOT_TYPES : List String :=
  ["scatter", "histogram", "bar", "line", "box", "heatmap"]

/-- `NLtoVizAgent.MAX_RETRIES`: max retries on parameter generation failure. -/
def MAX_RETRIES : Nat := 1

/-- `supported_types_str = ", ".join(self.SUPPORTED_PLOT_TYPES)`. -/
def supported_types_str : String := String.intercalate ", " SUPPORTED_PLOT_TYPES

/-- Initial system prompt header of `_construct_prompt`. -/
def viz_system_prompt_header : String :=
  "You are an expert data visualization assistant. Your task is to interpret a natural language request for a plot and extract the necessary parameters into a structured JSON object."

/-- Retry system prompt header of `_construct_prompt`. -/
def viz_retry_header : String :=
  "You are an expert data visualization assistant. Your previous attempt to generate plot parameters resulted in an error or invalid output. Please analyze the feedback and provide corrected parameters."

/-- `schema_section` of `_construct_prompt`. -/
def viz_schema_section (schema_str : String) : String :=
  "DataFrame Schema (`df`):\n```\n" ++ schema_str ++ "\n```"

/-- `instructions_header` of `_construct_prompt`. -/
def instructions_header : String := "Instructions & Constraints:"

/-- `instructions_body` of `_construct_prompt` (braces of the JSON examples are
written as hex escapes). -/
def instructions_body : String :=
  "\n        1.  **Analyze Request:** Understand the user's desired visualization (type, data columns, relationships).\n        2.  **Use Schema:** Identify the exact column names from the schema that correspond to the user's request. Use the column names as they appear in the schema string.\n        3.  **Select Plot Type:** Choose the most appropriate plot type from the 'Available Plot Types' list based on the request and data columns.\n        4.  **Identify Columns:** Determine the column(s) for the X-axis (`x_col`), Y-axis (`y_col`), color (`color_col`), size (`size_col`), etc., as applicable to the plot type and request. Use `null` if a parameter is not applicable or not specified.\n        5.  **Aggregation (for Bar/Line):** If the request implies aggregation (e.g., \"total sales per region\", \"average price over time\"), identify the aggregation function (`aggregation`: 'sum', 'mean', 'count', 'median', etc.) and the column to aggregate (`y_col` usually becomes the aggregated value). The `x_col` is typically the grouping column or time axis. For a simple bar chart of counts, `y_col` might be null and `aggregation` would be 'count'.\n        6.  **Output Format:** Respond ONLY with a single, valid JSON object containing the extracted parameters. Do NOT include any explanations, comments, or markdown formatting (like ```json ... ```).\n\n        JSON Output Structure:\n        \x7b\n          \"plot_type\": \"...\",            // One of ["
  ++ supported_types_str
  ++ "]\n          \"x_col\": \"...\",                // Column name from schema for X-axis, or null\n          \"y_col\": \"...\",                // Column name from schema for Y-axis, or null\n          \"color_col\": \"...\",            // Column name for color encoding, or null\n          \"size_col\": \"...\",             // Column name for size encoding (scatter), or null\n          \"aggregation\": \"...\",          // Aggregation function ('count', 'sum', 'mean', etc.), or null\n          \"error\": \"...\"                 // Optional: Error message if request cannot be fulfilled, otherwise null or omit.\n        \x7d\n\n        Example Request 1: \"Show distribution of age using a histogram\"\n        Example Output 1:\n        \x7b\n          \"plot_type\": \"histogram\",\n          \"x_col\": \"age\",\n          \"y_col\": null,\n          \"color_col\": null,\n          \"size_col\": null,\n          \"aggregation\": null,\n          \"error\": null\n        \x7d\n\n        Example Request 2: \"Plot total sales per region as a bar chart\"\n        Example Output 2:\n        \x7b\n          \"plot_type\": \"bar\",\n          \"x_col\": \"region\",\n          \"y_col\": \"sales\",\n          \"color_col\": null,\n          \"size_col\": null,\n          \"aggregation\": \"sum\",\n          \"error\": null\n        \x7d\n\n        Example Request 3: \"Scatter plot of marketing spend vs revenue, colored by campaign\"\n        Example Output 3:\n        \x7b\n          \"plot_type\": \"scatter\",\n          \"x_col\": \"marketing_spend\",\n          \"y_col\": \"revenue\",\n          \"color_col\": \"campaign\",\n          \"size_col\": null,\n          \"aggregation\": null,\n          \"error\": null\n        \x7d\n\n        Example Request 4: \"Can you plot profit?\" (Ambiguous)\n        Example Output 4:\n        \x7b\n          \"plot_type\": null,\n          \"x_col\": null,\n          \"y_col\": null,\n          \"color_col\": null,\n          \"size_col\": null,\n          \"aggregation\": null,\n          \"error\": \"Ambiguous request: Please specify the type of plot and any other relevant columns (e.g., 'histogram of profit', 'profit over time').\"\n        \x7d\n        "

/-- The retry `user_message_content` f-string of `_construct_prompt`: names the
original request, the schema, the previous (invalid) JSON output verbatim and
the error feedback verbatim. -/
def viz_retry_user (nl_request schema_str previous_params_str error_feedback : String) : String :=
  "\n            Original Natural Language Request: "
  ++ pyStrip nl_request
  ++ "\n\n            DataFrame Schema Used:\n            "
  ++ schema_str
  ++ "\n\n\n            Your previously generated JSON parameters (which were invalid):\n            ```json\n            "
  ++ previous_params_str
  ++ "\n            ```\n\n            Error/Validation Feedback:\n            "
  ++ error_feedback
  ++ "\n\n            Please carefully review the schema, original request, previous attempt, and the error feedback. Generate a corrected, valid JSON object containing appropriate plot parameters based only on the schema and the user's original request. Ensure the plot_type is supported ("
  ++ supported_types_str
  ++ ") and all specified column names (x_col, y_col, etc.) exist exactly as shown in the schema. If the request truly cannot be fulfilled based on the schema, set the \"error\" field in the JSON.\n            Respond ONLY with the corrected JSON object.\n            "

/-- The standard initial `user_message_content` of `_construct_prompt`. -/
def viz_initial_user (nl_request : String) : String :=
  "Natural Language Request: " ++ pyStrip nl_request
  ++ "\n\nPlease generate the plot parameters JSON based on the schema and instructions."

/-- `NLtoVizAgent._construct_prompt`: switches to the error-feedback form when
both a previous output and error feedback are given (Python truthiness). -/
def construct_prompt (nl_request schema_str : String)
    (previous_params_str error_feedback : Option String) : List Msg :=
  if pyTruthy previous_params_str && pyTruthy error_feedback then
    [⟨"system", viz_retry_header ++ "\n\n" ++ viz_schema_section schema_str ++ "\n\n"
        ++ instructions_header ++ "\n" ++ instructions_body⟩,
     ⟨"user", pyStrip (viz_retry_user nl_request schema_str
        (previous_params_str.getD "") (error_feedback.getD ""))⟩]
  else
    [⟨"system", viz_system_prompt_header ++ "\n\n" ++ viz_schema_section schema_str ++ "\n\n"
        ++ instructions_header ++ "\n" ++ instructions_body⟩,
     ⟨"user", pyStrip (viz_initial_user nl_request)⟩]

/-- Observable outcome of the `generate_viz_params` retry loop: the returned
`(params, error)` pair, the number of completion calls made, and the prompt
messages submitted at each attempt. -/
structure VizOutcome (P : Type) where
  params : Option P
  error : Option String
  attempts : Nat
  prompts : List (List Msg)

/-- The body of one loop iteration of `generate_viz_params`, given the
completion result: either an early successful return of the validated
parameters (`Sum.inl`), or the updated `(last_error, last_attempt_json)` pair
(`Sum.inr`) — the `if llm_error: / elif raw_json_str: / else:` chain of the
source, with Python truthiness for both the error strings and the raw
content. -/
def vizStep (P : Type) (validate : String → Option P × Option String)
    (res : Option String × Option String) :
    Sum (Option P) (Option String × Option String) :=
  if pyTruthy res.2 then Sum.inr (res.2, none)
  else
    match res.1 with
    | some raw =>
      if raw ≠ "" then
        let v := validate raw
        if pyTruthy v.2 then Sum.inr (v.2, some raw)
        else Sum.inl v.1
      else Sum.inr (some "LLM empty content.", none)
    | none => Sum.inr (some "LLM empty content.", none)

/-- The `for attempt in range(self.MAX_RETRIES + 1)` loop of
`generate_viz_params`.  `validate` stands for `self._parse_and_validate_json`
applied to `schema_dict` (its result type `P` is the parameter dictionary) and
`complete` for `execute_llm_completion` at each attempt; `remaining` is
`MAX_RETRIES - attempt`.  A successful validation returns immediately; any
other outcome updates `last_error` / `last_attempt_json` and, when no attempt
remains, produces the final failure pair. -/
def vizGo (P : Type) (validate : String → Option P × Option String)
    (complete : Nat → Option String × Option String)
    (nl_request schema_str : String) :
    Nat → Nat → Option String → Option String → VizOutcome P
  | attempt, remaining, last_error, last_attempt_json =>
    let messages := construct_prompt nl_request schema_str last_attempt_json last_error
    match vizStep P validate (complete attempt) with
    | Sum.inl p => ⟨p, none, 1, [messages]⟩
    | Sum.inr (newE, newJ) =>
      match remaining with
      | 0 =>
        ⟨none, some ("Failed after retries. Last error: "
          ++ (if pyTruthy newE then newE.getD "" else "Unknown failure.")), 1, [messages]⟩
      | r + 1 =>
        let o := vizGo P validate complete nl_request schema_str (attempt + 1) r newE newJ
        ⟨o.params, o.error, o.attempts + 1, messages :: o.prompts⟩

/-- `NLtoVizAgent.generate_viz_params` (the completion client is an explicit
capability; `llm_config` and `schema_dict` are modelled by their truthiness,
which is all the guard inspects). -/
def generate_viz_params (P : Type) (validate : String → Option P × Option String)
    (complete : Nat → Option String × Option String)
    (nl_request schema_str : String) (llm_config schema_dict : Bool) : VizOutcome P :=
  if nl_request == "" || schema_str == "" || !llm_config || !schema_dict then
    ⟨none, some "Missing input(s).", 0, []⟩
  else vizGo P validate complete nl_request schema_str 0 MAX_RETRIES none none

/-- One attempt of the loop fails when its step does not return successfully:
the completion reports a (truthy) error, returns empty content, or returns
content the validator rejects. -/
def attemptFails (P : Type) (validate : String → Option P × Option String)
    (complete : Nat → Option String × Option String) (n : Nat) : Bool :=
  (vizStep P validate (complete n)).isRight

end NLtoVizAgent

/-! ## The SQL execute-and-retry loop of `app.py` (`execute_query_endpoint`) -/

namespace App

/-- Capabilities and session state consumed by the retry loop of
`execute_query_endpoint`: the store (`database_agent.execute_query`, indexed by
the attempt number; only the error component is inspected by the loop), the
regeneration call (`nl_to_sql.generate_sql_query` with the previous query and
error), the session table name, and `get_table_schema_for_llm`. -/
structure ExecEnv where
  dbExec : Nat → String → Option String
  regen : Nat → String → String → Option String × Option String
  tableName : Option String
  getSchema : String → String

/-- Terminal outcome of the loop: a successfully executed query, or the error
payload of the JSON response. -/
inductive ExecResult
  | ok (sql : String)
  | err (msg : String)
deriving DecidableEq, Repr

/-- The `while attempt <= max_retries` loop of `execute_query_endpoint`,
returning the outcome and the number of store executions performed;
`remaining = max_retries - attempt` (the source guard `attempt < max_retries`
holds exactly when `remaining` is a successor). -/
def execGo (env : ExecEnv) (maxRetries : Nat) : Nat → Nat → String → ExecResult × Nat
  | attempt, 0, sql =>
    let dbErr := env.dbExec attempt sql
    if pyTruthy dbErr then
      (ExecResult.err ("SQL Execution Failed after " ++ toString (maxRetries + 1)
        ++ " attempts: " ++ dbErr.getD ""), 1)
    else (ExecResult.ok sql, 1)
  | attempt, r + 1, sql =>
    let dbErr := env.dbExec attempt sql
    if pyTruthy dbErr then
      let e := dbErr.getD ""
      match env.tableName with
      | none => (ExecResult.err "Table name not found for retry.", 1)
      | some tn =>
        let schema_str := env.getSchema tn
        if "Error:".data.isPrefixOf schema_str.data then
          (ExecResult.err ("Schema not found for retry (" ++ schema_str ++ ")."), 1)
        else
          let g := env.regen attempt sql e
          if pyTruthy g.2 then
            (ExecResult.err ("SQL Execution Failed: " ++ e ++ ". LLM retry also failed: "
              ++ g.2.getD ""), 1)
          else
            match g.1 with
            | some c =>
              if c ≠ "" then
                let o := execGo env maxRetries (attempt + 1) r c
                (o.1, o.2 + 1)
              else
                (ExecResult.err ("SQL Execution Failed: " ++ e
                  ++ ". LLM retry returned empty SQL."), 1)
            | none =>
              (ExecResult.err ("SQL Execution Failed: " ++ e
                ++ ". LLM retry returned empty SQL."), 1)
    else (ExecResult.ok sql, 1)

/-- The loop entered with `attempt = 0` and budget `max_retries`
(`nl_to_sql.MAX_RETRIES` in the endpoint). -/
def execute_query_loop (env : ExecEnv) (maxRetries : Nat) (sql : String) :
    ExecResult × Nat :=
  execGo env maxRetries 0 maxRetries sql

end App

end DataOps




/-! # Theorems

All definitions are above; everything below is a proof about them. -/

namespace DataOps

namespace NLtoSQLAgent

/-! ### Properties of the SQL validator -/

theorem findSub_prefix {pat : List Char} :
    ∀ {l : List Char} {i : Nat}, findSub pat l = some i → pat <+: l.drop i := by
  intro l
  induction l with
  | nil =>
    intro i h
    unfold findSub at h
    split at h
    · rename_i hp
      injection h with h
      subst h
      simpa [List.isPrefixOf_iff_prefix] using hp
    · exact Option.noConfusion h
  | cons c t ih =>
    intro i h
    unfold findSub at h
    split at h
    · rename_i hp
      injection h with h
      subst h
      simpa [List.isPrefixOf_iff_prefix] using hp
    · rcases hopt : findSub pat t with _ | j
      · rw [hopt] at h
        simp at h
      · rw [hopt] at h
        have hji : j + 1 = i := by simpa using h
        subst hji
        simpa using ih hopt

theorem keywordCheck_accept {c acc : List Char} {e : Option String}
    (h : keywordCheck c = (some acc, e)) :
    acc = c ∧ ∀ kw ∈ disallowed, isSubstr kw (upperC c) = false := by
  unfold keywordCheck at h
  split at h
  · simp at h
  · rename_i hany
    rw [Bool.not_eq_true] at hany
    refine ⟨by injection h with h1 _; injection h1 with h1; exact h1.symm, ?_⟩
    intro kw hkw
    by_contra hne
    rw [Bool.not_eq_false] at hne
    have : disallowed.any (fun kw => isSubstr kw (upperC c)) = true :=
      List.any_eq_true.mpr ⟨kw, hkw, hne⟩
    rw [this] at hany
    exact Bool.true_eq_false.mp hany

theorem prefix_rstripBy {p : Char → Bool} (pre rest : List Char)
    (hpre : ∀ c ∈ pre, p c = false) : pre <+: rstripBy p (pre ++ rest) := by
  unfold rstripBy
  rw [List.reverse_append]
  by_cases hr : ∀ c ∈ rest.reverse, p c = true
  · have h1 : rest.reverse.dropWhile p = [] := List.dropWhile_eq_nil_iff.mpr (by
      intro c hc; simpa using hr c hc)
    rw [List.dropWhile_append, h1]
    simp only [List.isEmpty_nil, if_true]
    have hdp : pre.reverse.dropWhile p = pre.reverse := by
      cases hpe : pre.reverse with
      | nil => simp
      | cons x xs =>
        have hx : x ∈ pre := by
          have hx0 : x ∈ pre.reverse := by rw [hpe]; exact List.mem_cons_self x xs
          simpa using hx0
        rw [List.dropWhile_cons, hpre x hx]
        simp
    rw [hdp, List.reverse_reverse]
  · have h2 : rest.reverse.dropWhile p ≠ [] := fun hnil => hr (by
      intro c hc
      simpa using List.dropWhile_eq_nil_iff.mp hnil c hc)
    rw [List.dropWhile_append]
    simp only [List.isEmpty_iff, if_neg h2, List.reverse_append, List.reverse_reverse]
    exact List.prefix_append pre _

theorem pySpace_toUpper {c : Char} (h : pySpace c = true) : c.toUpper = c := by
  simp only [pySpace, Bool.or_eq_true, decide_eq_true_eq] at h
  rcases h with ((((h | h) | h) | h) | h) | h <;> subst h <;> decide

/-- Characters whose uppercase image is a non-space, non-semicolon character
are themselves non-space and non-semicolon. -/
theorem chars_from_upper {l u : List Char} (h : l.map Char.toUpper = u)
    (hu : ∀ c ∈ u, pySpace c = false ∧ c ≠ ';') :
    ∀ c ∈ l, pySpace c = false ∧ c ≠ ';' := by
  intro c hc
  have hmem : c.toUpper ∈ u := h ▸ List.mem_map_of_mem Char.toUpper hc
  constructor
  · by_contra hsp
    rw [Bool.not_eq_false] at hsp
    have h1 := (hu _ hmem).1
    rw [pySpace_toUpper hsp, hsp] at h1
    exact Bool.true_eq_false.mp h1
  · intro hcs
    subst hcs
    have he : (';' : Char).toUpper = ';' := by decide
    rw [he] at hmem
    exact (hu ';' hmem).2 rfl

theorem dropWhile_eq_self_of_take {p : Char → Bool} {n : Nat} (hn : 0 < n)
    {l : List Char} (h : ∀ c ∈ l.take n, p c = false) : l.dropWhile p = l := by
  cases l with
  | nil => rfl
  | cons x xs =>
    have hx : x ∈ (x :: xs).take n := by
      cases n with
      | zero => omega
      | succ m => simp [List.take_succ_cons]
    rw [List.dropWhile_cons, h x hx]
    simp

/-- Every string the validator accepts starts with `SELECT` (case-insensitively,
after leading whitespace), and its uppercase image contains none of the
disallowed keyword-plus-space tokens. -/
theorem sqlFinalize_accept {clean2 raw acc : List Char} {e : Option String}
    (h : sqlFinalize clean2 raw = (some acc, e)) :
    "SELECT".data.isPrefixOf (lstripC (upperC acc)) = true
    ∧ ∀ kw ∈ disallowed, isSubstr kw (upperC acc) = false := by
  unfold sqlFinalize at h
  split at h
  · rename_i hsel
    obtain ⟨hacc, hkw⟩ := keywordCheck_accept h
    subst hacc
    exact ⟨hsel, hkw⟩
  · rename_i hsel
    split at h
    · rename_i i hfind
      obtain ⟨hacc, hkw⟩ := keywordCheck_accept h
      have hp7 : "SELECT ".data <+: upperC (clean2.drop i) := by
        rw [upperC, List.map_drop]
        exact findSub_prefix hfind
      obtain ⟨t, ht⟩ := hp7
      set d := clean2.drop i with hd
      have hlen : 6 ≤ d.length := by
        have hl := congrArg List.length ht
        rw [List.length_append] at hl
        have h7 : ("SELECT ".data).length = 7 := rfl
        rw [h7] at hl
        simp [upperC] at hl
        omega
      have hpre6 : (d.take 6).map Char.toUpper = "SELECT".data := by
        have h1 : (upperC d).take 6 = "SELECT".data := by
          rw [← ht, List.take_append_of_le_length (by decide)]
          decide
        rw [← h1, upperC, List.map_take]
      have hchars : ∀ c ∈ d.take 6, pySpace c = false ∧ c ≠ ';' :=
        chars_from_upper hpre6 (by decide)
      have h6len : (d.take 6).length = 6 := by
        rw [List.length_take]; omega
      -- the SELECT prefix is kept through strip and the semicolon strip
      have hld : d.dropWhile pySpace = d := by
        refine dropWhile_eq_self_of_take (n := 1) (by omega) ?_
        intro c hc
        have hc6 : c ∈ d.take 6 := by
          have h11 : d.take 1 = (d.take 6).take 1 := by
            simp [List.take_take]
          rw [h11] at hc
          exact List.take_subset 1 _ hc
        exact (hchars c hc6).1
      have hstrip : d.take 6 <+: stripC d := by
        unfold stripC lstripC rstripC
        rw [hld]
        have h2 := prefix_rstripBy (d.take 6) (d.drop 6) (fun c hc => (hchars c hc).1)
        rwa [List.take_append_drop] at h2
      obtain ⟨r1, hr1⟩ := hstrip
      have hsemi : d.take 6 <+: stripSemi (stripC d) := by
        unfold stripSemi
        rw [← hr1]
        have hds : (d.take 6 ++ r1).dropWhile (fun c => c = ';') = d.take 6 ++ r1 := by
          refine dropWhile_eq_self_of_take (n := 1) (by omega) ?_
          intro c hc
          rw [List.take_append_of_le_length (by omega)] at hc
          have hc6 : c ∈ d.take 6 := List.take_subset 1 _ hc
          simpa using (hchars c hc6).2
        rw [hds]
        exact prefix_rstripBy _ _ (fun c hc => by simpa using (hchars c hc).2)
      obtain ⟨r2, hr2⟩ := hsemi
      constructor
      · rw [hacc, ← hr2]
        simp only [upperC, List.map_append, hpre6]
        rw [show ("SELECT".data : List Char) ++ List.map Char.toUpper r2
              = 'S' :: ("ELECT".data ++ List.map Char.toUpper r2) from rfl]
        unfold lstripC
        rw [List.dropWhile_cons]
        simp only [show pySpace 'S' = false from rfl, Bool.false_eq_true, if_false]
        rw [List.isPrefixOf_iff_prefix]
        exact List.prefix_append _ _
      · rw [hacc]
        exact hkw
    · exact Prod.noConfusion h (fun h1 _ => Option.noConfusion h1)


theorem parseAndValidateSqlC_accept {raw acc : List Char} {e : Option String}
    (h : parseAndValidateSqlC raw = (some acc, e)) :
    "SELECT".data.isPrefixOf (lstripC (upperC acc)) = true
    ∧ ∀ kw ∈ disallowed, isSubstr kw (upperC acc) = false := by
  unfold parseAndValidateSqlC at h
  split at h
  · simp at h
  · split at h
    · simp at h
    · exact sqlFinalize_accept h

end NLtoSQLAgent

/-- C1 counterexample: the raw completion `"; select delete"` is accepted by
`_parse_and_validate_sql` as `" select delete"`, although its cleaned form
contains the mutating keyword `delete` (so the claim that any cleaned text
containing a mutating keyword is rejected fails), and the accepted string does
not begin with `SELECT` (it begins with a space). -/
theorem C1_counterexample :
    NLtoSQLAgent.parse_and_validate_sql "; select delete" = (some " select delete", none)
    ∧ isSubstr "delete".data (lowerC " select delete".data) = true
    ∧ "SELECT".data.isPrefixOf (upperC " select delete".data) = false := by
  refine ⟨by decide, by decide, by decide⟩

/-- C1 (amended): `_parse_and_validate_sql` always returns either a validation
error or an accepted string; every accepted string begins with `SELECT`
case-insensitively after discarding leading whitespace; any candidate whose
cleaned form contains one of the disallowed tokens — a mutating keyword
immediately followed by a space (`UPDATE `, `DELETE `, `INSERT `, `DROP `,
`TRUNCATE `, `ALTER `, `CREATE `), case-insensitively — is rejected; and in
particular `DELETE FROM t` is never returned as a validated query, either by
the validator or by `generate_sql_query` run against a completion stub that
always produces it. -/
theorem C1_sql_validator_amended :
    (∀ raw acc e, NLtoSQLAgent.parse_and_validate_sql raw = (some acc, e) →
      "SELECT".data.isPrefixOf (lstripC (upperC acc.data)) = true
      ∧ ∀ kw ∈ NLtoSQLAgent.disallowed, isSubstr kw (upperC acc.data) = false)
    ∧ NLtoSQLAgent.parse_and_validate_sql "DELETE FROM t"
        = (none, some "LLM response does not appear to be a valid SELECT query. Response: 'DELETE FROM t...'")
    ∧ (∀ q s, q ≠ "" → s ≠ "" →
        NLtoSQLAgent.generate_sql_query (fun _ => (some "DELETE FROM t", none)) q s true none none
          = (none, some "LLM response does not appear to be a valid SELECT query. Response: 'DELETE FROM t...'")) := by
  refine ⟨?_, by decide, ?_⟩
  · intro raw acc e h
    unfold NLtoSQLAgent.parse_and_validate_sql at h
    rcases hc : NLtoSQLAgent.parseAndValidateSqlC raw.data with ⟨o1, o2⟩
    rw [hc] at h
    cases o1 with
    | none => simp at h
    | some l =>
      dsimp only at h
      rw [show (some l).map String.mk = some (String.mk l) from rfl] at h
      injection h with h1 h2
      injection h1 with h1
      subst h2
      subst h1
      exact NLtoSQLAgent.parseAndValidateSqlC_accept hc
  · intro q s hq hs
    have h1 : (q == "") = false := beq_eq_false_iff_ne.mpr hq
    have h2 : (s == "") = false := beq_eq_false_iff_ne.mpr hs
    unfold NLtoSQLAgent.generate_sql_query
    rw [h1, h2]
    rfl

/-- C1 witness: the amended theorem applied at the concrete accepted input
`"; select 1"` and at concrete non-empty question and schema strings. -/
theorem C1_witness :
    ("SELECT".data.isPrefixOf (lstripC (upperC (" select 1" : String).data)) = true)
    ∧ NLtoSQLAgent.generate_sql_query (fun _ => (some "DELETE FROM t", none)) "q" "s" true none none
        = (none, some "LLM response does not appear to be a valid SELECT query. Response: 'DELETE FROM t...'") :=
  ⟨(C1_sql_validator_amended.1 "; select 1" " select 1" none (by decide)).1,
   C1_sql_validator_amended.2.2 "q" "s" (by decide) (by decide)⟩

/-! ### Substring and strip lemmas used for the corrective-prompt claims -/

theorem strData_append (s t : String) : (s ++ t).data = s.data ++ t.data := rfl

theorem isSubstr_nil (l : List Char) : isSubstr [] l = true := by
  cases l <;> simp [isSubstr]

theorem isSubstr_append_right (x b : List Char) : isSubstr x (x ++ b) = true := by
  cases x with
  | nil => exact isSubstr_nil b
  | cons c t =>
    rw [List.cons_append]
    simp only [isSubstr, Bool.or_eq_true]
    left
    rw [List.isPrefixOf_iff_prefix]
    exact ⟨b, by simp⟩

theorem isSubstr_cons (c : Char) {x t : List Char} (h : isSubstr x t = true) :
    isSubstr x (c :: t) = true := by
  simp only [isSubstr, Bool.or_eq_true]
  right
  exact h

theorem isSubstr_append_left (a : List Char) {x t : List Char}
    (h : isSubstr x t = true) : isSubstr x (a ++ t) = true := by
  induction a with
  | nil => simpa using h
  | cons c cs ih => exact isSubstr_cons c ih

theorem dropWhile_append_not_all {p : Char → Bool} {a : List Char} (B : List Char)
    (h : ∃ c ∈ a, p c = false) : (a ++ B).dropWhile p = a.dropWhile p ++ B := by
  rw [List.dropWhile_append]
  have hne : a.dropWhile p ≠ [] := by
    intro hnil
    obtain ⟨c, hc, hcf⟩ := h
    have := List.dropWhile_eq_nil_iff.mp hnil c hc
    rw [hcf] at this
    exact Bool.false_eq_true.mp this
  simp [List.isEmpty_iff, hne]

theorem stripC_split {a b : List Char} (x : List Char)
    (ha : ∃ c ∈ a, pySpace c = false) (hb : ∃ c ∈ b, pySpace c = false) :
    ∃ a2 b2, stripC (a ++ (x ++ b)) = a2 ++ (x ++ b2) := by
  unfold stripC lstripC rstripC rstripBy
  rw [dropWhile_append_not_all _ ha]
  have h2 : (a.dropWhile pySpace ++ (x ++ b)).reverse
      = b.reverse ++ (x.reverse ++ (a.dropWhile pySpace).reverse) := by
    simp [List.reverse_append, List.append_assoc]
  rw [h2]
  have hbrev : ∃ c ∈ b.reverse, pySpace c = false := by
    obtain ⟨c, hc, hcf⟩ := hb
    exact ⟨c, by simpa using hc, hcf⟩
  rw [dropWhile_append_not_all _ hbrev]
  refine ⟨a.dropWhile pySpace, (b.reverse.dropWhile pySpace).reverse, ?_⟩
  simp [List.reverse_append, List.reverse_reverse, List.append_assoc]

theorem isSubstr_pyStrip_of_split (s : String) (a x b : List Char)
    (hs : s.data = a ++ (x ++ b))
    (ha : ∃ c ∈ a, pySpace c = false) (hb : ∃ c ∈ b, pySpace c = false) :
    isSubstr x (pyStrip s).data = true := by
  have hd : (pyStrip s).data = stripC s.data := rfl
  rw [hd, hs]
  obtain ⟨a2, b2, he⟩ := stripC_split x ha hb
  rw [he]
  exact isSubstr_append_left a2 (isSubstr_append_right x b2)

/-! ### Attempt counting in the two retry loops -/

namespace NLtoVizAgent

theorem vizGo_attempts_le (P : Type) (v : String → Option P × Option String)
    (c : Nat → Option String × Option String) (req sch : String) :
    ∀ (remaining attempt : Nat) (le lj : Option String),
      (vizGo P v c req sch attempt remaining le lj).attempts ≤ remaining + 1 := by
  intro remaining
  induction remaining with
  | zero =>
    intro attempt le lj
    unfold vizGo
    rcases hstep : vizStep P v (c attempt) with p | ⟨newE, newJ⟩ <;> simp
  | succ r ih =>
    intro attempt le lj
    unfold vizGo
    rcases hstep : vizStep P v (c attempt) with p | ⟨newE, newJ⟩
    · simp
    · show (vizGo P v c req sch (attempt + 1) r newE newJ).attempts + 1 ≤ r + 1 + 1
      exact Nat.succ_le_succ (ih (attempt + 1) newE newJ)

theorem vizGo_persistent (P : Type) (v : String → Option P × Option String)
    (c : Nat → Option String × Option String) (req sch : String)
    (hfail : ∀ n, attemptFails P v c n = true) :
    ∀ (remaining attempt : Nat) (le lj : Option String),
      (vizGo P v c req sch attempt remaining le lj).attempts = remaining + 1
      ∧ (vizGo P v c req sch attempt remaining le lj).params = none
      ∧ ∃ m, (vizGo P v c req sch attempt remaining le lj).error = some m := by
  intro remaining
  induction remaining with
  | zero =>
    intro attempt le lj
    unfold vizGo
    rcases hstep : vizStep P v (c attempt) with p | ⟨newE, newJ⟩
    · have := hfail attempt
      rw [attemptFails, hstep] at this
      simp [Sum.isRight] at this
    · exact ⟨rfl, rfl, _, rfl⟩
  | succ r ih =>
    intro attempt le lj
    unfold vizGo
    rcases hstep : vizStep P v (c attempt) with p | ⟨newE, newJ⟩
    · have := hfail attempt
      rw [attemptFails, hstep] at this
      simp [Sum.isRight] at this
    · obtain ⟨h1, h2, m, h3⟩ := ih (attempt + 1) newE newJ
      refine ⟨?_, ?_, m, ?_⟩
      · show (vizGo P v c req sch (attempt + 1) r newE newJ).attempts + 1 = r + 1 + 1
        omega
      · exact h2
      · exact h3

end NLtoVizAgent

namespace App

theorem execGo_count_le (env : ExecEnv) (mr : Nat) :
    ∀ (remaining attempt : Nat) (sql : String),
      (execGo env mr attempt remaining sql).2 ≤ remaining + 1 := by
  intro remaining
  induction remaining with
  | zero =>
    intro attempt sql
    simp only [execGo]
    split <;> simp
  | succ r ih =>
    intro attempt sql
    simp only [execGo]
    split
    · rcases htn : env.tableName with _ | tn <;> simp only [htn]
      · simp
      · split
        · simp
        · split
          · simp
          · rcases hg : (env.regen attempt sql ((env.dbExec attempt sql).getD "")).1
              with _ | cq <;> simp only [hg]
            · simp
            · split
              · show (execGo env mr (attempt + 1) r cq).2 + 1 ≤ r + 1 + 1
                exact Nat.succ_le_succ (ih (attempt + 1) cq)
              · simp
    · simp

theorem execGo_persistent (env : ExecEnv) (mr : Nat)
    (hdb : ∀ n s, pyTruthy (env.dbExec n s) = true)
    (htn : ∃ tn, env.tableName = some tn)
    (hsch : ∀ tn, env.tableName = some tn →
      "Error:".data.isPrefixOf (env.getSchema tn).data = false)
    (hgen : ∀ n s e, pyTruthy (env.regen n s e).2 = false
      ∧ ∃ cq, (env.regen n s e).1 = some cq ∧ cq ≠ "") :
    ∀ (remaining attempt : Nat) (sql : String),
      (execGo env mr attempt remaining sql).2 = remaining + 1
      ∧ ∃ m, (execGo env mr attempt remaining sql).1 = ExecResult.err m := by
  intro remaining
  induction remaining with
  | zero =>
    intro attempt sql
    simp only [execGo, hdb attempt sql, if_true]
    exact ⟨by simp, _, rfl⟩
  | succ r ih =>
    intro attempt sql
    obtain ⟨tn, htn'⟩ := htn
    obtain ⟨hg2, cq, hg1, hcq⟩ := hgen attempt sql ((env.dbExec attempt sql).getD "")
    have hpref := hsch tn htn'
    simp only [execGo, hdb attempt sql, if_true, htn', hpref, Bool.false_eq_true, if_false,
      hg2, hg1, if_pos hcq]
    obtain ⟨h1, m, h2⟩ := ih (attempt + 1) cq
    exact ⟨by simpa using h1, m, h2⟩

end App

/-! ### The corrective prompt names the previous output and the error -/

set_option maxRecDepth 8000

theorem viz_retry_prompt_contains (req sch prev err : String)
    (hp : prev ≠ "") (he : err ≠ "") :
    NLtoVizAgent.construct_prompt req sch (some prev) (some err)
      = [⟨"system", NLtoVizAgent.viz_retry_header ++ "\n\n"
            ++ NLtoVizAgent.viz_schema_section sch ++ "\n\n"
            ++ NLtoVizAgent.instructions_header ++ "\n" ++ NLtoVizAgent.instructions_body⟩,
         ⟨"user", pyStrip (NLtoVizAgent.viz_retry_user req sch prev err)⟩]
    ∧ isSubstr prev.data (pyStrip (NLtoVizAgent.viz_retry_user req sch prev err)).data = true
    ∧ isSubstr err.data (pyStrip (NLtoVizAgent.viz_retry_user req sch prev err)).data = true := by
  have h1 : pyTruthy (some prev) = true := by simp [pyTruthy, hp]
  have h2 : pyTruthy (some err) = true := by simp [pyTruthy, he]
  refine ⟨?_, ?_, ?_⟩
  · unfold NLtoVizAgent.construct_prompt
    rw [h1, h2]
    rfl
  · apply isSubstr_pyStrip_of_split _
      (("\n            Original Natural Language Request: " : String).data ++ ((pyStrip req).data ++ (("\n\n            DataFrame Schema Used:\n            " : String).data ++ (sch.data ++ (("\n\n\n            Your previously generated JSON parameters (which were invalid):\n            ```json\n            " : String).data)))))
      prev.data
      (("\n            ```\n\n            Error/Validation Feedback:\n            " : String).data ++ (err.data ++ (("\n\n            Please carefully review the schema, original request, previous attempt, and the error feedback. Generate a corrected, valid JSON object containing appropriate plot parameters based only on the schema and the user's original request. Ensure the plot_type is supported (" : String).data ++ (NLtoVizAgent.supported_types_str.data ++ ((") and all specified column names (x_col, y_col, etc.) exist exactly as shown in the schema. If the request truly cannot be fulfilled based on the schema, set the \"error\" field in the JSON.\n            Respond ONLY with the corrected JSON object.\n            " : String).data)))))
    · simp [NLtoVizAgent.viz_retry_user, strData_append, List.append_assoc]
    · exact ⟨'O', List.mem_append_left _ (by decide), by decide⟩
    · exact ⟨'E', List.mem_append_left _ (by decide), by decide⟩
  · apply isSubstr_pyStrip_of_split _
      (("\n            Original Natural Language Request: " : String).data ++ ((pyStrip req).data ++ (("\n\n            DataFrame Schema Used:\n            " : String).data ++ (sch.data ++ (("\n\n\n            Your previously generated JSON parameters (which were invalid):\n            ```json\n            " : String).data ++ (prev.data ++ (("\n            ```\n\n            Error/Validation Feedback:\n            " : String).data)))))))
      err.data
      (("\n\n            Please carefully review the schema, original request, previous attempt, and the error feedback. Generate a corrected, valid JSON object containing appropriate plot parameters based only on the schema and the user's original request. Ensure the plot_type is supported (" : String).data ++ (NLtoVizAgent.supported_types_str.data ++ ((") and all specified column names (x_col, y_col, etc.) exist exactly as shown in the schema. If the request truly cannot be fulfilled based on the schema, set the \"error\" field in the JSON.\n            Respond ONLY with the corrected JSON object.\n            " : String).data)))
    · simp [NLtoVizAgent.viz_retry_user, strData_append, List.append_assoc]
    · exact ⟨'O', List.mem_append_left _ (by decide), by decide⟩
    · exact ⟨'P', List.mem_append_left _ (by decide), by decide⟩

theorem sql_retry_prompt_contains (q s prev err : String)
    (hp : prev ≠ "") (he : err ≠ "") :
    NLtoSQLAgent.construct_prompt q s (some prev) (some err)
      = [⟨"system", NLtoSQLAgent.sql_retry_header ++ "\n\n"
            ++ NLtoSQLAgent.sql_schema_section s ++ "\n" ++ NLtoSQLAgent.sql_instructions⟩,
         ⟨"user", pyStrip (NLtoSQLAgent.sql_retry_user q s prev err)⟩]
    ∧ isSubstr (pyStrip prev).data (pyStrip (NLtoSQLAgent.sql_retry_user q s prev err)).data = true
    ∧ isSubstr (NLtoSQLAgent.cleanDbError err).data
        (pyStrip (NLtoSQLAgent.sql_retry_user q s prev err)).data = true := by
  have h1 : pyTruthy (some prev) = true := by simp [pyTruthy, hp]
  have h2 : pyTruthy (some err) = true := by simp [pyTruthy, he]
  refine ⟨?_, ?_, ?_⟩
  · unfold NLtoSQLAgent.construct_prompt
    rw [h1, h2]
    rfl
  · apply isSubstr_pyStrip_of_split _
      (("\n            Original Natural Language Question: " : String).data ++ ((pyStrip q).data ++ (("\n\n            The following PostgreSQL schema was used:\n            ```sql\n            " : String).data ++ (s.data ++ (("\n\n            Your previously generated SQL query, which FAILED:\n            " : String).data)))))
      (pyStrip prev).data
      (("\n\n            Resulted in the following database error:\n            " : String).data ++ ((NLtoSQLAgent.cleanDbError err).data ++ (("\n\n            Please carefully review the schema, the original question, your previous query, and the database error (especially regarding table/column names and syntax). Provide a corrected and valid PostgreSQL SELECT query based only on the schema and question.\n            Respond ONLY with the corrected SQL query, without any explanations or markdown.\n            " : String).data)))
    · simp [NLtoSQLAgent.sql_retry_user, strData_append, List.append_assoc]
    · exact ⟨'O', List.mem_append_left _ (by decide), by decide⟩
    · exact ⟨'R', List.mem_append_left _ (by decide), by decide⟩
  · apply isSubstr_pyStrip_of_split _
      (("\n            Original Natural Language Question: " : String).data ++ ((pyStrip q).data ++ (("\n\n            The following PostgreSQL schema was used:\n            ```sql\n            " : String).data ++ (s.data ++ (("\n\n            Your previously generated SQL query, which FAILED:\n            " : String).data ++ ((pyStrip prev).data ++ (("\n\n            Resulted in the following database error:\n            " : String).data)))))))
      (NLtoSQLAgent.cleanDbError err).data
      (("\n\n            Please carefully review the schema, the original question, your previous query, and the database error (especially regarding table/column names and syntax). Provide a corrected and valid PostgreSQL SELECT query based only on the schema and question.\n            Respond ONLY with the corrected SQL query, without any explanations or markdown.\n            " : String).data)
    · simp [NLtoSQLAgent.sql_retry_user, strData_append, List.append_assoc]
    · exact ⟨'O', List.mem_append_left _ (by decide), by decide⟩
    · exact ⟨'P', by decide, by decide⟩

theorem vizGo_retry_prompts (P : Type) (v : String → Option P × Option String)
    (c : Nat → Option String × Option String) (req sch : String)
    {r0 : String} {e0 : Option String} {p : Option P} {verr : String}
    (hc : c 0 = (some r0, e0)) (he0 : pyTruthy e0 = false) (hr0 : r0 ≠ "")
    (hv : v r0 = (p, some verr)) (hverr : verr ≠ "") :
    (NLtoVizAgent.vizGo P v c req sch 0 NLtoVizAgent.MAX_RETRIES none none).prompts
      = [NLtoVizAgent.construct_prompt req sch none none,
         NLtoVizAgent.construct_prompt req sch (some r0) (some verr)] := by
  have hstep : NLtoVizAgent.vizStep P v (c 0) = Sum.inr (some verr, some r0) := by
    rw [hc]
    unfold NLtoVizAgent.vizStep
    rw [show (some r0, e0).2 = e0 from rfl, he0]
    rw [if_neg (by simp)]
    rw [show (some r0, e0).1 = some r0 from rfl]
    dsimp only
    rw [if_pos hr0]
    rw [hv]
    rw [if_pos (show pyTruthy (p, some verr).2 = true by simp [pyTruthy, hverr])]
  have hrec : ∀ le lj, (NLtoVizAgent.vizGo P v c req sch 1 0 le lj).prompts
      = [NLtoVizAgent.construct_prompt req sch lj le] := by
    intro le lj
    unfold NLtoVizAgent.vizGo
    rcases hstep1 : NLtoVizAgent.vizStep P v (c 1) with p1 | ⟨nE, nJ⟩ <;> simp
  show (NLtoVizAgent.vizGo P v c req sch 0 1 none none).prompts = _
  unfold NLtoVizAgent.vizGo
  rw [hstep]
  show NLtoVizAgent.construct_prompt req sch none none
      :: (NLtoVizAgent.vizGo P v c req sch 1 0 (some verr) (some r0)).prompts = _
  rw [hrec]


/-- C2: the translation-and-retry protocol always terminates with a result or
failure value after at most `retryBudget + 1` completion attempts; with the
default budget (`MAX_RETRIES = 1`) this is at most 2 attempts, and when every
attempt fails it performs exactly `retryBudget + 1` attempts — never more,
never fewer.  The same bound holds for the SQL execute-and-retry loop of
`execute_query_endpoint`: at most `MAX_RETRIES + 1` store executions, and
exactly that many when the store fails persistently while regeneration keeps
supplying queries. -/
theorem C2_retry_budget_bound :
    (∀ (P : Type) (v : String → Option P × Option String)
      (c : Nat → Option String × Option String) (req sch : String)
      (attempt remaining : Nat) (le lj : Option String),
      (NLtoVizAgent.vizGo P v c req sch attempt remaining le lj).attempts ≤ remaining + 1)
    ∧ (∀ (P : Type) (v : String → Option P × Option String)
      (c : Nat → Option String × Option String) (req sch : String) (cfg sd : Bool),
      (NLtoVizAgent.generate_viz_params P v c req sch cfg sd).attempts
        ≤ NLtoVizAgent.MAX_RETRIES + 1)
    ∧ NLtoVizAgent.MAX_RETRIES + 1 = 2
    ∧ (∀ (P : Type) (v : String → Option P × Option String)
      (c : Nat → Option String × Option String) (req sch : String),
      req ≠ "" → sch ≠ "" →
      (∀ n, NLtoVizAgent.attemptFails P v c n = true) →
      (NLtoVizAgent.generate_viz_params P v c req sch true true).attempts
          = NLtoVizAgent.MAX_RETRIES + 1
        ∧ (NLtoVizAgent.generate_viz_params P v c req sch true true).params = none
        ∧ ∃ m, (NLtoVizAgent.generate_viz_params P v c req sch true true).error = some m)
    ∧ (∀ (env : App.ExecEnv) (mr : Nat) (sql : String),
      (App.execute_query_loop env mr sql).2 ≤ mr + 1)
    ∧ (∀ (env : App.ExecEnv) (sql : String),
      (∀ n s, pyTruthy (env.dbExec n s) = true) →
      (∃ tn, env.tableName = some tn) →
      (∀ tn, env.tableName = some tn →
        "Error:".data.isPrefixOf (env.getSchema tn).data = false) →
      (∀ n s e, pyTruthy (env.regen n s e).2 = false
        ∧ ∃ cq, (env.regen n s e).1 = some cq ∧ cq ≠ "") →
      (App.execute_query_loop env NLtoSQLAgent.MAX_RETRIES sql).2
          = NLtoSQLAgent.MAX_RETRIES + 1
      ∧ ∃ m, (App.execute_query_loop env NLtoSQLAgent.MAX_RETRIES sql).1
          = App.ExecResult.err m) := by
  refine ⟨?_, ?_, rfl, ?_, ?_, ?_⟩
  · intro P v c req sch attempt remaining le lj
    exact NLtoVizAgent.vizGo_attempts_le P v c req sch remaining attempt le lj
  · intro P v c req sch cfg sd
    unfold NLtoVizAgent.generate_viz_params
    split
    · simp
    · exact NLtoVizAgent.vizGo_attempts_le P v c req sch NLtoVizAgent.MAX_RETRIES 0 none none
  · intro P v c req sch hreq hsch hfail
    have h1 : (req == "") = false := beq_eq_false_iff_ne.mpr hreq
    have h2 : (sch == "") = false := beq_eq_false_iff_ne.mpr hsch
    unfold NLtoVizAgent.generate_viz_params
    rw [h1, h2]
    rw [if_neg (by simp)]
    exact NLtoVizAgent.vizGo_persistent P v c req sch hfail NLtoVizAgent.MAX_RETRIES 0 none none
  · intro env mr sql
    exact App.execGo_count_le env mr mr 0 sql
  · intro env sql hdb htn hsch hgen
    exact App.execGo_persistent env NLtoSQLAgent.MAX_RETRIES hdb htn hsch hgen
      NLtoSQLAgent.MAX_RETRIES 0 sql

/-- C2 witness: the bound and the exact count at concrete stubs — a validator
that always rejects and a completion that always answers, and a store that
always fails while regeneration keeps producing a query. -/
theorem C2_witness :
    ((NLtoVizAgent.generate_viz_params Nat (fun _ => (none, some "bad"))
        (fun _ => (some "x", none)) "req" "sch" true true).attempts
      = NLtoVizAgent.MAX_RETRIES + 1)
    ∧ (App.execute_query_loop
        ⟨fun _ _ => some "boom", fun _ _ _ => (some "SELECT 2", none),
         some "t", fun _ => "sch"⟩ NLtoSQLAgent.MAX_RETRIES "SELECT 1").2
      = NLtoSQLAgent.MAX_RETRIES + 1 :=
  ⟨(C2_retry_budget_bound.2.2.2.1 Nat (fun _ => (none, some "bad"))
      (fun _ => (some "x", none)) "req" "sch" (by decide) (by decide)
      (fun _ => rfl)).1,
   (C2_retry_budget_bound.2.2.2.2.2
      ⟨fun _ _ => some "boom", fun _ _ _ => (some "SELECT 2", none),
       some "t", fun _ => "sch"⟩ "SELECT 1"
      (fun _ _ => rfl) ⟨"t", rfl⟩ (fun _ _ => rfl)
      (fun _ _ _ => ⟨rfl, "SELECT 2", rfl, by decide⟩)).1⟩

/-- C5 counterexample: in the SQL flavor the database error is regex-cleaned
before insertion (`LINE n: `, `HINT:...`, `CONTEXT:...` fragments removed), so
for the failed-query error `HINT: use quotes` no message of the retry prompt
contains the exact error text. -/
theorem C5_counterexample :
    (NLtoSQLAgent.construct_prompt "q" "s" (some "SELECT 1") (some "HINT: use quotes")).map
        (fun m => isSubstr "HINT: use quotes".data m.content.data)
      = [false, false] := by decide

/-- C5 (amended): when a retry attempt remains after a failed first attempt,
the next prompt names the previous output and the error: in the viz flavor the
user message contains the previous invalid output verbatim and the exact
validation-error text, and the attempt-1 prompt of the `generate_viz_params`
loop is exactly the corrective prompt built from the attempt-0 output and its
validation error; in the SQL flavor the user message contains the previous
query stripped of surrounding whitespace, together with the database error
after removal of `LINE n: `, `HINT:...` and `CONTEXT:...` fragments and
surrounding whitespace (so the exact error text only when no such fragment
occurs). -/
theorem C5_corrective_prompt_amended :
    (∀ req sch prev err : String, prev ≠ "" → err ≠ "" →
      ∃ userc, (NLtoVizAgent.construct_prompt req sch (some prev) (some err)).get? 1
          = some ⟨"user", userc⟩
        ∧ isSubstr prev.data userc.data = true
        ∧ isSubstr err.data userc.data = true)
    ∧ (∀ (P : Type) (v : String → Option P × Option String)
        (c : Nat → Option String × Option String) (req sch : String)
        (r0 : String) (e0 : Option String) (p : Option P) (verr : String),
        c 0 = (some r0, e0) → pyTruthy e0 = false → r0 ≠ "" →
        v r0 = (p, some verr) → verr ≠ "" →
        (NLtoVizAgent.vizGo P v c req sch 0 NLtoVizAgent.MAX_RETRIES none none).prompts
          = [NLtoVizAgent.construct_prompt req sch none none,
             NLtoVizAgent.construct_prompt req sch (some r0) (some verr)])
    ∧ (∀ q s prev err : String, prev ≠ "" → err ≠ "" →
      ∃ userc, (NLtoSQLAgent.construct_prompt q s (some prev) (some err)).get? 1
          = some ⟨"user", userc⟩
        ∧ isSubstr (pyStrip prev).data userc.data = true
        ∧ isSubstr (NLtoSQLAgent.cleanDbError err).data userc.data = true) := by
  refine ⟨?_, ?_, ?_⟩
  · intro req sch prev err hp he
    obtain ⟨heq, h1, h2⟩ := viz_retry_prompt_contains req sch prev err hp he
    refine ⟨_, ?_, h1, h2⟩
    rw [heq]
    rfl
  · intro P v c req sch r0 e0 p verr hc he0 hr0 hv hverr
    exact vizGo_retry_prompts P v c req sch hc he0 hr0 hv hverr
  · intro q s prev err hp he
    obtain ⟨heq, h1, h2⟩ := sql_retry_prompt_contains q s prev err hp he
    refine ⟨_, ?_, h1, h2⟩
    rw [heq]
    rfl

/-- C5 witness: the amended theorem at a concrete previous query and database
error. -/
theorem C5_witness :
    ∃ userc, (NLtoSQLAgent.construct_prompt "q" "s" (some "SELECT 1") (some "HINT: x")).get? 1
        = some ⟨"user", userc⟩
      ∧ isSubstr (pyStrip "SELECT 1").data userc.data = true
      ∧ isSubstr (NLtoSQLAgent.cleanDbError "HINT: x").data userc.data = true :=
  C5_corrective_prompt_amended.2.2 "q" "s" "SELECT 1" "HINT: x" (by decide) (by decide)

/-! ### Duplicate removal is idempotent -/

theorem dedupFirstAux_subset {α : Type} [DecidableEq α] :
    ∀ (l seen : List α) (x : α), x ∈ dedupFirstAux seen l → x ∈ l ∧ x ∉ seen := by
  intro l
  induction l with
  | nil => intro seen x h; simp [dedupFirstAux] at h
  | cons r rest ih =>
    intro seen x h
    unfold dedupFirstAux at h
    split at h
    · obtain ⟨h1, h2⟩ := ih seen x h
      exact ⟨List.mem_cons_of_mem r h1, h2⟩
    · rename_i hr
      rcases List.mem_cons.mp h with he | hm
      · subst he
        exact ⟨List.mem_cons_self x rest, hr⟩
      · obtain ⟨h1, h2⟩ := ih (r :: seen) x hm
        exact ⟨List.mem_cons_of_mem r h1, fun hs => h2 (List.mem_cons_of_mem r hs)⟩

theorem dedupFirstAux_nodup {α : Type} [DecidableEq α] :
    ∀ (l seen : List α), (dedupFirstAux seen l).Nodup := by
  intro l
  induction l with
  | nil => intro seen; simp [dedupFirstAux]
  | cons r rest ih =>
    intro seen
    unfold dedupFirstAux
    split
    · exact ih seen
    · refine List.Nodup.cons ?_ (ih (r :: seen))
      intro hmem
      exact (dedupFirstAux_subset rest (r :: seen) r hmem).2 (List.mem_cons_self r seen)

theorem dedupFirstAux_eq_self {α : Type} [DecidableEq α] :
    ∀ (l seen : List α), l.Nodup → (∀ x ∈ l, x ∉ seen) → dedupFirstAux seen l = l := by
  intro l
  induction l with
  | nil => intro seen _ _; rfl
  | cons r rest ih =>
    intro seen hnd hdisj
    unfold dedupFirstAux
    split
    · rename_i hr
      exact absurd hr (hdisj r (List.mem_cons_self r rest))
    · rw [ih (r :: seen) (List.Nodup.of_cons hnd) ?_]
      intro x hx
      intro hmem
      rcases List.mem_cons.mp hmem with he | hs
      · subst he
        exact (List.nodup_cons.mp hnd).1 hx
      · exact hdisj x (List.mem_cons_of_mem r hx) hs

theorem dedupFirst_idem {α : Type} [DecidableEq α] (l : List α) :
    dedupFirst (dedupFirst l) = dedupFirst l :=
  dedupFirstAux_eq_self (dedupFirst l) [] (dedupFirstAux_nodup l [])
    (fun x _ => List.not_mem_nil x)

/-! ### The caller object is never mutated by apply -/

namespace CleaningAgent

theorem phase1_caller (s : PyState) (acts : List Action) :
    (phase1 s acts).1.caller = s.caller := by
  simp only [phase1]
  split <;> rfl

theorem phase2_caller (s : PyState) (acts : List Action) :
    (phase2 s acts).1.caller = s.caller := by
  simp only [phase2]
  split
  · split <;> rfl
  · rfl

theorem phase3Step_caller (o : Sklearn) (s : PyState) (applied : List (String × String))
    (a : Action) : (phase3Step o s applied a).1.caller = s.caller := by
  simp only [phase3Step]
  split
  · rfl
  · split
    · rfl
    · split
      · split
        · rfl
        · split <;> rfl
      · split <;> rfl

theorem phase3_caller (o : Sklearn) :
    ∀ (acts : List Action) (s : PyState) (applied : List (String × String)),
      (phase3 o s applied acts).1.caller = s.caller := by
  intro acts
  induction acts with
  | nil => intro s applied; rfl
  | cons a rest ih =>
    intro s applied
    show (phase3 o (phase3Step o s applied a).1 (phase3Step o s applied a).2.1 rest).1.caller
        = s.caller
    rw [ih ((phase3Step o s applied a).1) ((phase3Step o s applied a).2.1)]
    exact phase3Step_caller o s applied a

theorem applyPhases_caller (o : Sklearn) (s : PyState) (acts : List Action) :
    (applyPhases o s acts).1.caller = s.caller := by
  unfold applyPhases
  rw [phase3_caller, phase2_caller, phase1_caller]

end CleaningAgent

/-- C7: applying the empty action list returns a dataset equal to the input
with no log messages, and for every action list the caller object bound to the
`df` argument is left unchanged (`apply_cleaning_steps` works on
`cleaned_df = df.copy()` only). -/
theorem C7_apply_empty_identity :
    (∀ (o : CleaningAgent.Sklearn) (D : Df),
      CleaningAgent.apply_cleaning_steps o (some D) [] = (some D, []))
    ∧ (∀ (o : CleaningAgent.Sklearn) (D : Df) (acts : List CleaningAgent.Action),
      (CleaningAgent.applyPhases o ⟨D, D⟩ acts).1.caller = D) :=
  ⟨fun _ _ => rfl, fun o D acts => CleaningAgent.applyPhases_caller o ⟨D, D⟩ acts⟩

theorem apply_remove_duplicates_eq (o : CleaningAgent.Sklearn) (X : Df)
    (a : CleaningAgent.Action) (h : a.action_code = "remove_duplicates") :
    CleaningAgent.apply_cleaning_steps o (some X) [a]
      = (some { X with rows := dedupFirst X.rows },
         [if X.rows.length - (dedupFirst X.rows).length > 0 then
            "Applied 'remove_duplicates': Removed "
              ++ fmtComma (X.rows.length - (dedupFirst X.rows).length) ++ " duplicate rows."
          else "Applied 'remove_duplicates': No duplicate rows found to remove."]) := by
  have hb : (a.action_code == "remove_duplicates") = true := by simp [h]
  have hf : (decide ¬(a.action_code = "remove_duplicates")) = false := by simp [h]
  simp only [CleaningAgent.apply_cleaning_steps, CleaningAgent.applyPhases,
    CleaningAgent.phase1, List.any_cons, List.any_nil, hb, Bool.true_or, if_true,
    List.filter_cons, hf, List.filter_nil, CleaningAgent.phase2,
    CleaningAgent.markDrops, CleaningAgent.phase3]
  split <;> simp_all

/-- C8: applying the `remove_duplicates` action twice yields the same row
count as applying it once. -/
theorem C8_remove_duplicates_idempotent :
    ∀ (o : CleaningAgent.Sklearn) (D : Df) (a : CleaningAgent.Action),
      a.action_code = "remove_duplicates" →
      ∀ D1 D2, (CleaningAgent.apply_cleaning_steps o (some D) [a]).1 = some D1 →
               (CleaningAgent.apply_cleaning_steps o (some D1) [a]).1 = some D2 →
               D2.rows.length = D1.rows.length := by
  intro o D a h D1 D2 h1 h2
  rw [apply_remove_duplicates_eq o D a h] at h1
  rw [apply_remove_duplicates_eq o D1 a h] at h2
  have e1 : D1 = { D with rows := dedupFirst D.rows } := by
    injection h1 with h1
    exact h1.symm
  have e2 : D2 = { D1 with rows := dedupFirst D1.rows } := by
    injection h2 with h2
    exact h2.symm
  rw [e2, e1]
  simp [dedupFirst_idem]

/-- C8 witness: the idempotence theorem at a concrete two-row frame with a
duplicate. -/
theorem C8_witness :
    (⟨["a"], ["int64"], [[Cell.int 1]]⟩ : Df).rows.length
      = (⟨["a"], ["int64"], [[Cell.int 1]]⟩ : Df).rows.length :=
  C8_remove_duplicates_idempotent ⟨fun _ _ _ => Except.error ""⟩
    ⟨["a"], ["int64"], [[Cell.int 1], [Cell.int 1]]⟩
    ⟨some "ALL", none, none, "remove_duplicates", []⟩ rfl
    ⟨["a"], ["int64"], [[Cell.int 1]]⟩ ⟨["a"], ["int64"], [[Cell.int 1]]⟩
    (by decide) (by decide)

theorem phase3Step_error (o : CleaningAgent.Sklearn) (s : CleaningAgent.PyState)
    (applied : List (String × String)) (a : CleaningAgent.Action)
    (col strategy : String) (fill : Option Cell) (label e : String)
    (hcol : a.column = some col) (hmem : col ∈ s.cleaned.cols)
    (himp : CleaningAgent.imputerFor a.action_code a.details = some (strategy, fill, label))
    (hprev : (pyTruthy (applied.lookup col)
      && ((applied.lookup col).getD "").startsWith "impute") = false)
    (hft : o.fit_transform strategy fill
      (CleaningAgent.getColumn s.cleaned (CleaningAgent.colIdx s.cleaned.cols col))
      = Except.error e) :
    CleaningAgent.phase3Step o s applied a = (s, applied,
      ["Error applying action '" ++ a.action_code ++ "' to column '" ++ col ++ "': " ++ e]) := by
  simp only [CleaningAgent.phase3Step, hcol]
  rw [if_neg (fun hn => hn hmem)]
  rw [himp]
  dsimp only
  rw [if_neg (by simp [hprev])]
  rw [hft]

/-- C9: `apply_cleaning_steps` always returns a dataset plus a list of log
strings for every input frame and action list, and a failure raised while
applying one action is caught, logged, and leaves the state unchanged while
all remaining actions are still attempted. -/
theorem C9_apply_never_raises :
    (∀ (o : CleaningAgent.Sklearn) (D : Df) (acts : List CleaningAgent.Action),
      ∃ D' logs, CleaningAgent.apply_cleaning_steps o (some D) acts = (some D', logs))
    ∧ (∀ (o : CleaningAgent.Sklearn) (s : CleaningAgent.PyState)
        (applied : List (String × String)) (a : CleaningAgent.Action)
        (rest : List CleaningAgent.Action)
        (col strategy : String) (fill : Option Cell) (label e : String),
        a.column = some col → col ∈ s.cleaned.cols →
        CleaningAgent.imputerFor a.action_code a.details = some (strategy, fill, label) →
        (pyTruthy (applied.lookup col)
          && ((applied.lookup col).getD "").startsWith "impute") = false →
        o.fit_transform strategy fill
          (CleaningAgent.getColumn s.cleaned (CleaningAgent.colIdx s.cleaned.cols col))
          = Except.error e →
        CleaningAgent.phase3 o s applied (a :: rest)
          = ((CleaningAgent.phase3 o s applied rest).1,
             ("Error applying action '" ++ a.action_code ++ "' to column '" ++ col ++ "': " ++ e)
               :: (CleaningAgent.phase3 o s applied rest).2)) := by
  constructor
  · intro o D acts
    exact ⟨_, _, rfl⟩
  · intro o s applied a rest col strategy fill label e hcol hmem himp hprev hft
    show (let r1 := CleaningAgent.phase3Step o s applied a;
          let r2 := CleaningAgent.phase3 o r1.1 r1.2.1 rest;
          (r2.1, r1.2.2 ++ r2.2)) = _
    rw [phase3Step_error o s applied a col strategy fill label e hcol hmem himp hprev hft]
    simp

/-- C9 witness: the fault-isolation part at a concrete failing imputation
followed by a remaining action. -/
theorem C9_witness :
    CleaningAgent.phase3 ⟨fun _ _ _ => Except.error "boom"⟩
        ⟨⟨["a"], ["int64"], [[Cell.null]]⟩, ⟨["a"], ["int64"], [[Cell.null]]⟩⟩ []
        [⟨some "a", none, none, "impute_mean", []⟩, ⟨some "a", none, none, "bogus", []⟩]
      = ((CleaningAgent.phase3 ⟨fun _ _ _ => Except.error "boom"⟩
            ⟨⟨["a"], ["int64"], [[Cell.null]]⟩, ⟨["a"], ["int64"], [[Cell.null]]⟩⟩ []
            [⟨some "a", none, none, "bogus", []⟩]).1,
         "Error applying action 'impute_mean' to column 'a': boom"
           :: (CleaningAgent.phase3 ⟨fun _ _ _ => Except.error "boom"⟩
                ⟨⟨["a"], ["int64"], [[Cell.null]]⟩, ⟨["a"], ["int64"], [[Cell.null]]⟩⟩ []
                [⟨some "a", none, none, "bogus", []⟩]).2) :=
  C9_apply_never_raises.2 ⟨fun _ _ _ => Except.error "boom"⟩
    ⟨⟨["a"], ["int64"], [[Cell.null]]⟩, ⟨["a"], ["int64"], [[Cell.null]]⟩⟩ []
    ⟨some "a", none, none, "impute_mean", []⟩ [⟨some "a", none, none, "bogus", []⟩]
    "a" "mean" none "mean" "boom" rfl (by decide) rfl rfl rfl

/-! ### Profiling an empty frame and the DBSCAN population guard -/

theorem str_append_ne_empty (s t : String) (h : s ≠ "") : s ++ t ≠ "" := by
  intro he
  apply h
  have hd : s.data ++ t.data = [] := by
    have h2 := congrArg String.data he
    simpa [strData_append] using h2
  obtain ⟨d⟩ := s
  have hnil : d = [] := (List.append_eq_nil.mp hd).1
  subst hnil
  rfl

/-- C3: profiling a zero-row DataFrame returns the minimal well-formed report
(zero counts, empty maps, null statistics, an outlier entry carrying a
non-empty error string) rather than raising or returning `None`. -/
theorem C3_profile_empty_minimal :
    ∀ (libP : PreprocessingAgent.PandasStats) (libC : PreprocessingAgent.SklearnCluster)
      (d : Df) (params : DbscanParams),
      d.rows = [] →
      PreprocessingAgent.profile libP libC (some d) params
        = some PreprocessingAgent.emptyReport
      ∧ PreprocessingAgent.emptyReport.basic_info = ⟨0, 0, 0, "0 Bytes"⟩
      ∧ PreprocessingAgent.emptyReport.data_types = []
      ∧ PreprocessingAgent.emptyReport.missing_values = []
      ∧ PreprocessingAgent.emptyReport.cardinality = []
      ∧ PreprocessingAgent.emptyReport.correlation_matrix = none
      ∧ PreprocessingAgent.emptyReport.skewness = none
      ∧ PreprocessingAgent.emptyReport.kurtosis = none
      ∧ ∃ e, PreprocessingAgent.emptyReport.outlier_detection.error = some e ∧ e ≠ "" := by
  intro libP libC d params h
  have he : dfEmpty d = true := by simp [dfEmpty, h]
  refine ⟨?_, rfl, rfl, rfl, rfl, rfl, rfl, rfl, "DataFrame is empty", rfl, by decide⟩
  simp only [PreprocessingAgent.profile, he, if_true]

/-- C3 witness: a frame with a column but no rows, under arbitrary concrete
statistics capabilities. -/
theorem C3_witness :
    PreprocessingAgent.profile
        ⟨fun _ => Except.error "", fun _ => Except.error "", fun _ => Except.error "",
         fun _ => Except.error "", fun _ => Except.error "", fun _ => Except.error ""⟩
        ⟨fun _ => Except.error "", fun _ _ _ => Except.error ""⟩
        (some ⟨["a"], ["int64"], []⟩) ⟨none, none⟩
      = some PreprocessingAgent.emptyReport :=
  (C3_profile_empty_minimal
    ⟨fun _ => Except.error "", fun _ => Except.error "", fun _ => Except.error "",
     fun _ => Except.error "", fun _ => Except.error "", fun _ => Except.error ""⟩
    ⟨fun _ => Except.error "", fun _ _ _ => Except.error ""⟩
    ⟨["a"], ["int64"], []⟩ ⟨none, none⟩ rfl).1

/-- C4: when fewer rows than `min_samples` survive the NaN drop, the detector
returns zero outlier count, zero percentage, zero rows analyzed and a
non-empty error string, without raising. -/
theorem C4_dbscan_population_guard :
    ∀ (lib : PreprocessingAgent.SklearnCluster) (ndf : Df) (params : DbscanParams),
      (PreprocessingAgent.dropna ndf).rows.length < params.min_samples.getD 5 →
      (PreprocessingAgent.perform_dbscan lib ndf params).outlier_count = some 0
      ∧ (PreprocessingAgent.perform_dbscan lib ndf params).outlier_percentage = some 0
      ∧ (PreprocessingAgent.perform_dbscan lib ndf params).rows_analyzed = some 0
      ∧ ∃ e, (PreprocessingAgent.perform_dbscan lib ndf params).error = some e ∧ e ≠ "" := by
  intro lib ndf params h
  by_cases hemp : dfEmpty ndf = true
  · simp only [PreprocessingAgent.perform_dbscan, hemp, if_true]
    exact ⟨rfl, rfl, rfl, "Input numeric DataFrame is empty.", rfl, by decide⟩
  · have hemp' : dfEmpty ndf = false := by simpa using hemp
    simp only [PreprocessingAgent.perform_dbscan, hemp', Bool.false_eq_true, if_false]
    rw [if_pos h]
    refine ⟨rfl, rfl, rfl, _, rfl, ?_⟩
    exact str_append_ne_empty _ _ (str_append_ne_empty _ _ (str_append_ne_empty _ _
      (str_append_ne_empty _ _ (by decide))))

/-- C4 witness: a one-row numeric frame against the default `min_samples` of 5. -/
theorem C4_witness :
    (PreprocessingAgent.perform_dbscan ⟨fun _ => Except.error "", fun _ _ _ => Except.error ""⟩
        ⟨["a"], ["int64"], [[Cell.int 1]]⟩ ⟨none, none⟩).outlier_count = some 0 :=
  (C4_dbscan_population_guard ⟨fun _ => Except.error "", fun _ _ _ => Except.error ""⟩
    ⟨["a"], ["int64"], [[Cell.int 1]]⟩ ⟨none, none⟩ (by decide)).1

/-! ### The suggestion rules for missing values -/

namespace CleaningAgent

theorem suggestForCol_column (dt : List (String × String)) (col : String)
    (info : MissingInfo) (l : List Suggestion)
    (h : suggestForCol dt col info = Except.ok l) :
    ∀ s ∈ l, s.column = col := by
  intro s hs
  simp only [suggestForCol] at h
  split at h
  · split at h
    · injection h with h
      subst h
      simp at hs
      subst hs
      rfl
    · split at h
      · exact absurd h (by simp)
      · split at h
        · split at h
          · injection h with h
            subst h
            simp at hs
            rcases hs with hs | hs <;> subst hs <;> rfl
          · injection h with h
            subst h
            simp at hs
            subst hs
            rfl
        · split at h
          · split at h
            · injection h with h
              subst h
              simp at hs
              rcases hs with hs | hs <;> subst hs <;> rfl
            · injection h with h
              subst h
              simp at hs
              subst hs
              rfl
          · injection h with h
            subst h
            simp at hs
  · injection h with h
    subst h
    simp at hs

theorem missingSuggestions_columns (dt : List (String × String)) :
    ∀ (mv : List (String × MissingInfo)) (M : List Suggestion),
      missingSuggestions dt mv = Except.ok M →
      ∀ s ∈ M, s.column ∈ mv.map Prod.fst := by
  intro mv
  induction mv with
  | nil =>
    intro M h s hs
    injection h with h
    subst h
    simp at hs
  | cons p rest ih =>
    intro M h s hs
    obtain ⟨c', info'⟩ := p
    simp only [missingSuggestions] at h
    split at h
    · exact absurd h (by simp)
    · rename_i l1 h1
      split at h
      · exact absurd h (by simp)
      · rename_i l2 h2
        injection h with h
        subst h
        rcases List.mem_append.mp hs with hm | hm
        · have hc := suggestForCol_column dt c' info' l1 h1 s hm
          simp [hc]
        · exact List.mem_cons_of_mem _ (ih l2 h2 s hm)

theorem missingSuggestions_filter (dt : List (String × String)) (c : String)
    (info : MissingInfo) (φ : Suggestion → Bool)
    (hφ : ∀ s, φ s = true → s.column = c) :
    ∀ (mv : List (String × MissingInfo)) (M lc : List Suggestion),
      (mv.map Prod.fst).Nodup → (c, info) ∈ mv →
      missingSuggestions dt mv = Except.ok M →
      suggestForCol dt c info = Except.ok lc →
      M.filter φ = lc.filter φ := by
  intro mv
  induction mv with
  | nil =>
    intro M lc _ hmem
    simp at hmem
  | cons p rest ih =>
    intro M lc hnodup hmem hms hsc
    obtain ⟨c', info'⟩ := p
    rw [List.map_cons] at hnodup
    have hn := List.nodup_cons.mp hnodup
    simp only [missingSuggestions] at hms
    split at hms
    · exact absurd hms (by simp)
    · rename_i l1 h1
      split at hms
      · exact absurd hms (by simp)
      · rename_i l2 h2
        injection hms with hms
        subst hms
        rw [List.filter_append]
        rcases List.mem_cons.mp hmem with heq | hmem'
        · have hc : c' = c := by injection heq with h1' _; exact h1'.symm
          have hi : info' = info := by injection heq with _ h2'; exact h2'.symm
          subst hc
          subst hi
          have hl1 : l1 = lc := by
            rw [h1] at hsc
            injection hsc
          subst hl1
          have hl2 : l2.filter φ = [] := by
            rw [List.filter_eq_nil_iff]
            intro s hsmem
            intro hφs
            have hcol := hφ s hφs
            have hkeys := missingSuggestions_columns dt rest l2 h2 s hsmem
            rw [hcol] at hkeys
            exact hn.1 hkeys
          rw [hl2, List.append_nil]
        · have hckeys : c ∈ rest.map Prod.fst :=
            List.mem_map_of_mem Prod.fst hmem'
          have hne : c' ≠ c := by
            intro heq'
            subst heq'
            exact hn.1 hckeys
          have hl1 : l1.filter φ = [] := by
            rw [List.filter_eq_nil_iff]
            intro s hsmem hφs
            have hcol := hφ s hφs
            have hc' := suggestForCol_column dt c' info' l1 h1 s hsmem
            exact hne (hc'.symm.trans hcol)
          rw [hl1, List.nil_append]
          exact ih l2 lc hn.2 hmem' h2 hsc

theorem suggestForCol_high (dt : List (String × String)) (c : String)
    (info : MissingInfo) (hcount : info.count > 0) (hperc : info.percentage > 90) :
    suggestForCol dt c info = Except.ok
      [⟨c, fmt1 info.percentage ++ "% Missing",
        "Drop Column (Very High Missing %)", "drop_column", []⟩] := by
  simp only [suggestForCol]
  rw [if_pos hcount, if_pos hperc]

theorem suggestForCol_outside (dt : List (String × String)) (c : String)
    (info : MissingInfo) (d : String)
    (hlook : dt.lookup c = some d)
    (hperc : info.percentage ≤ 90)
    (h1 : isSubstr "int".data d.data = false)
    (h2 : isSubstr "float".data d.data = false)
    (h3 : isSubstr "object".data d.data = false)
    (h4 : isSubstr "string".data d.data = false)
    (h5 : isSubstr "category".data d.data = false) :
    suggestForCol dt c info = Except.ok [] := by
  simp only [suggestForCol]
  by_cases hc : info.count > 0
  · rw [if_pos hc, if_neg (not_lt.mpr hperc), hlook]
    dsimp only
    rw [if_neg (by simp [h1, h2]), if_neg (by simp [h3, h4, h5])]
  · rw [if_neg hc]

end CleaningAgent

/-! ### C6 and C10: what `suggest_cleaning_steps` proposes per column -/

/-- C6: for every column whose missing count is positive and whose missing
percentage exceeds 90 in a profile report with distinct `missing_values` keys,
`suggest_cleaning_steps` emits exactly one missing-value proposal targeting
that column, and its `action_code` is `drop_column`; the only other entry that
can carry the column name is the global duplicate-rows action
(`remove_duplicates`, column `"ALL"`), so no imputation proposal is emitted
for such a column. -/
theorem C6_high_missing_drop_only (r : ProfileReport) (df : Df)
    (c : String) (info : MissingInfo) (L : List CleaningAgent.Suggestion)
    (hnodup : (r.missing_values.map Prod.fst).Nodup)
    (hmem : (c, info) ∈ r.missing_values)
    (hcount : info.count > 0) (hperc : info.percentage > 90)
    (hok : CleaningAgent.suggest_cleaning_steps (some r) (some df) = Except.ok L) :
    (L.filter (fun s => s.column == c && s.action_code != "remove_duplicates")).map
        (fun s => s.action_code) = ["drop_column"] ∧
      ∀ s ∈ L, s.column = c →
        s.action_code = "drop_column" ∨ s.action_code = "remove_duplicates" := by
  simp only [CleaningAgent.suggest_cleaning_steps] at hok
  split at hok
  · exact absurd hok (by simp)
  · rename_i ms hms
    injection hok with hok
    subst hok
    have hlc := CleaningAgent.suggestForCol_high r.data_types c info hcount hperc
    constructor
    · rw [List.filter_append]
      have h1 := CleaningAgent.missingSuggestions_filter r.data_types c info
        (fun s => s.column == c && s.action_code != "remove_duplicates")
        (by intro s hs
            simp only [Bool.and_eq_true, beq_iff_eq, bne_iff_ne] at hs
            exact hs.1)
        r.missing_values ms _ hnodup hmem hms hlc
      rw [h1]
      have h2 : (if r.basic_info.duplicates > 0 then
            [(⟨"ALL", fmtComma r.basic_info.duplicates ++ " Duplicate Rows",
              "Remove Duplicate Rows", "remove_duplicates", []⟩ :
              CleaningAgent.Suggestion)]
          else []).filter
          (fun s => s.column == c && s.action_code != "remove_duplicates") = [] := by
        split <;> simp
      rw [h2, List.append_nil]
      simp
    · intro s hs hcol
      rcases List.mem_append.mp hs with hm | hm
      · have h1 := CleaningAgent.missingSuggestions_filter r.data_types c info
          (fun s => s.column == c)
          (by intro s hs
              simpa using hs)
          r.missing_values ms _ hnodup hmem hms hlc
        have hsin : s ∈ ms.filter (fun s => s.column == c) :=
          List.mem_filter.mpr ⟨hm, by simp [hcol]⟩
        rw [h1] at hsin
        rcases List.mem_filter.mp hsin with ⟨hmem1, -⟩
        simp only [List.mem_singleton] at hmem1
        left
        rw [hmem1]
      · split at hm
        · simp only [List.mem_singleton] at hm
          right
          rw [hm]
        · simp at hm

/-- `f"{95:.1f}" = "95.0"` (the percentage string of a 95%-missing column). -/
theorem fmt1_95 : fmt1 (95 : Rat) = "95.0" := by
  have h : ((95 : Rat) * 10) = 950 := by norm_num
  unfold fmt1 roundHalfEven
  rw [h, Rat.floor_def']
  norm_num
  rfl

/-- `f"{5:.1f}" = "5.0"` (the percentage string of a 5%-missing column). -/
theorem fmt1_5 : fmt1 (5 : Rat) = "5.0" := by
  have h : ((5 : Rat) * 10) = 50 := by norm_num
  unfold fmt1 roundHalfEven
  rw [h, Rat.floor_def']
  norm_num
  rfl

/-- Witness for C6: a two-column report where `"a"` is 95% missing (count 19)
and `"b"` is 5% missing; the suggestions for `"a"` are exactly one
`drop_column`. -/
theorem C6_witness :
    CleaningAgent.suggest_cleaning_steps
        (some ⟨⟨2, 2, 0, "64 Bytes"⟩, [("a", "float64"), ("b", "int64")],
          [("a", ⟨19, 95⟩), ("b", ⟨1, 5⟩)], none, [], none, none, none,
          ⟨"DBSCAN", none, none, none, none, none, none⟩⟩)
        (some ⟨["a"], ["float64"], [[Cell.null]]⟩) =
      Except.ok [⟨"a", "95.0% Missing", "Drop Column (Very High Missing %)",
          "drop_column", []⟩,
        ⟨"b", "5.0% Missing", "Impute with Median", "impute_median", []⟩,
        ⟨"b", "5.0% Missing", "Impute with Mean", "impute_mean", []⟩] ∧
    (([⟨"a", "95.0% Missing", "Drop Column (Very High Missing %)",
          "drop_column", []⟩,
        ⟨"b", "5.0% Missing", "Impute with Median", "impute_median", []⟩,
        (⟨"b", "5.0% Missing", "Impute with Mean", "impute_mean", []⟩ :
          CleaningAgent.Suggestion)].filter
        (fun s => s.column == "a" && s.action_code != "remove_duplicates")).map
        (fun s => s.action_code) = ["drop_column"] ∧
      ∀ s ∈ [⟨"a", "95.0% Missing", "Drop Column (Very High Missing %)",
          "drop_column", []⟩,
        ⟨"b", "5.0% Missing", "Impute with Median", "impute_median", []⟩,
        (⟨"b", "5.0% Missing", "Impute with Mean", "impute_mean", []⟩ :
          CleaningAgent.Suggestion)], s.column = "a" →
        s.action_code = "drop_column" ∨ s.action_code = "remove_duplicates") := by
  have hok : CleaningAgent.suggest_cleaning_steps
      (some ⟨⟨2, 2, 0, "64 Bytes"⟩, [("a", "float64"), ("b", "int64")],
        [("a", ⟨19, 95⟩), ("b", ⟨1, 5⟩)], none, [], none, none, none,
        ⟨"DBSCAN", none, none, none, none, none, none⟩⟩)
      (some ⟨["a"], ["float64"], [[Cell.null]]⟩) =
      Except.ok [⟨"a", "95.0% Missing", "Drop Column (Very High Missing %)",
          "drop_column", []⟩,
        ⟨"b", "5.0% Missing", "Impute with Median", "impute_median", []⟩,
        ⟨"b", "5.0% Missing", "Impute with Mean", "impute_mean", []⟩] := by
    have hsub : isSubstr "int".data "int64".data = true := by decide
    have hba : (("b" : String) == "a") = false := by decide
    norm_num [CleaningAgent.suggest_cleaning_steps, CleaningAgent.missingSuggestions,
      CleaningAgent.suggestForCol, List.lookup, fmt1_95, fmt1_5, hsub, hba]
    exact ⟨rfl, rfl⟩
  exact ⟨hok,
    C6_high_missing_drop_only
      ⟨⟨2, 2, 0, "64 Bytes"⟩, [("a", "float64"), ("b", "int64")],
        [("a", ⟨19, 95⟩), ("b", ⟨1, 5⟩)], none, [], none, none, none,
        ⟨"DBSCAN", none, none, none, none, none, none⟩⟩
      ⟨["a"], ["float64"], [[Cell.null]]⟩ "a" ⟨19, 95⟩ _
      (by decide) (by decide) (by decide) (by norm_num) hok⟩

/-- C10: a column whose declared dtype string contains none of `int`, `float`,
`object`, `string`, `category` (e.g. `bool` or `datetime64[ns]`), with missing
percentage in `(0, 90]`, receives no missing-value suggestion at all from
`suggest_cleaning_steps`. -/
theorem C10_other_dtypes_no_suggestion (r : ProfileReport) (df : Df)
    (c : String) (info : MissingInfo) (d : String)
    (L : List CleaningAgent.Suggestion)
    (hnodup : (r.missing_values.map Prod.fst).Nodup)
    (hmem : (c, info) ∈ r.missing_values)
    (hlook : r.data_types.lookup c = some d)
    (h1 : isSubstr "int".data d.data = false)
    (h2 : isSubstr "float".data d.data = false)
    (h3 : isSubstr "object".data d.data = false)
    (h4 : isSubstr "string".data d.data = false)
    (h5 : isSubstr "category".data d.data = false)
    (_hperc0 : 0 < info.percentage) (hperc : info.percentage ≤ 90)
    (hok : CleaningAgent.suggest_cleaning_steps (some r) (some df) = Except.ok L) :
    L.filter (fun s => s.column == c && s.action_code != "remove_duplicates")
      = [] := by
  simp only [CleaningAgent.suggest_cleaning_steps] at hok
  split at hok
  · exact absurd hok (by simp)
  · rename_i ms hms
    injection hok with hok
    subst hok
    have hlc := CleaningAgent.suggestForCol_outside r.data_types c info d
      hlook hperc h1 h2 h3 h4 h5
    rw [List.filter_append]
    have hf := CleaningAgent.missingSuggestions_filter r.data_types c info
      (fun s => s.column == c && s.action_code != "remove_duplicates")
      (by intro s hs
          simp only [Bool.and_eq_true, beq_iff_eq, bne_iff_ne] at hs
          exact hs.1)
      r.missing_values ms [] hnodup hmem hms hlc
    rw [hf]
    have h2' : (if r.basic_info.duplicates > 0 then
          [(⟨"ALL", fmtComma r.basic_info.duplicates ++ " Duplicate Rows",
            "Remove Duplicate Rows", "remove_duplicates", []⟩ :
            CleaningAgent.Suggestion)]
        else []).filter
        (fun s => s.column == c && s.action_code != "remove_duplicates") = [] := by
      split <;> simp
    rw [h2']
    rfl

/-- Witness for C10: a `bool` column that is 50% missing gets an empty
suggestion list. -/
theorem C10_witness :
    CleaningAgent.suggest_cleaning_steps
        (some ⟨⟨3, 1, 0, "64 Bytes"⟩, [("x", "bool")], [("x", ⟨5, 50⟩)],
          none, [], none, none, none,
          ⟨"DBSCAN", none, none, none, none, none, none⟩⟩)
        (some ⟨["x"], ["bool"], [[Cell.null]]⟩) = Except.ok [] ∧
    (([] : List CleaningAgent.Suggestion).filter
        (fun s => s.column == "x" && s.action_code != "remove_duplicates"))
      = [] :=
  ⟨rfl,
    C10_other_dtypes_no_suggestion
      ⟨⟨3, 1, 0, "64 Bytes"⟩, [("x", "bool")], [("x", ⟨5, 50⟩)],
        none, [], none, none, none,
        ⟨"DBSCAN", none, none, none, none, none, none⟩⟩
      ⟨["x"], ["bool"], [[Cell.null]]⟩ "x" ⟨5, 50⟩ "bool" []
      (by decide) (by decide) rfl (by decide) (by decide) (by decide)
      (by decide) (by decide) (by decide) (by decide) rfl⟩

end DataOps
